import Mathlib

/-!
Shallow embedding of the CrisisNet mesh-topology and routing subsystem
(`MeshNetwork`, `DijkstraRouter`, `AntColonyRouter`, `Router`).

Modelling conventions:
* JS numbers are modelled as exact rationals `JsRat` (a kernel-computable
  normalized fraction type), and as `JsNum` (`JsRat` plus an `inf` point)
  where `Infinity` can occur: tentative distances, route costs, pheromone
  intensities.
* `Math.sqrt` is not computable on the rationals, so every definition that
  needs it takes an explicit square-root function `sqrtQ : JsRat → JsRat`.
  General theorems quantify over `sqrtQ`; concrete evaluations instantiate it
  with `ratSqrt`, which is exact on the perfect-square integers those inputs
  produce.
* JS `Map`s (insertion ordered) are association lists; JS `Set`s are
  insertion-ordered duplicate-free lists.
* `Math.random()` is modelled as reading successive values from a stream
  `rand : ℕ → JsRat` through a threaded index.
* `new Date()` timestamps are supplied by the caller as a `now : ℕ` parameter,
  generated node ids / IP strings as explicit arguments.
* Methods that mutate instance state (`MeshNetwork`'s maps, `AntColonyRouter`'s
  pheromone field) become functions from the state to the new state.
-/

namespace Crisisnet

/-! ## Exact rational arithmetic, computable by the kernel -/

/-- Fuel-driven Euclidean algorithm.  256 steps of Euclid cover all operands
below the 256th Fibonacci number (≈ 10⁵³), astronomically beyond any number
arising in this development. -/
def gcdFuel : ℕ → ℕ → ℕ → ℕ
  | 0, a, _ => a
  | fuel + 1, a, b => if b = 0 then a else gcdFuel fuel b (a % b)

/-- A normalized fraction: `den > 0`, `gcd (num.natAbs) den = 1` for every
value built by the smart constructor `JsRat.norm`, so structural equality is
value equality. -/
structure JsRat where
  num : Int
  den : ℕ
deriving DecidableEq, Repr

/-- Embed a natural number. -/
def JsRat.ofNat (n : ℕ) : JsRat := ⟨Int.ofNat n, 1⟩

/-- Smart constructor: reduce to lowest terms, positive denominator. -/
def JsRat.norm (num : Int) (den : ℕ) : JsRat :=
  if den = 0 then { num := 0, den := 1 }
  else
    let g := gcdFuel 256 num.natAbs den
    if g = 0 then { num := 0, den := 1 }
    else { num := num / g, den := den / g }

def JsRat.add (a b : JsRat) : JsRat :=
  JsRat.norm (a.num * b.den + b.num * a.den) (a.den * b.den)

def JsRat.sub (a b : JsRat) : JsRat :=
  JsRat.norm (a.num * b.den - b.num * a.den) (a.den * b.den)

def JsRat.mul (a b : JsRat) : JsRat :=
  JsRat.norm (a.num * b.num) (a.den * b.den)

/-- Division; division by zero yields 0 and is never reached on the evaluated
paths (the JS `x / 0 = Infinity` case is modelled separately by `jsDiv` where
the source can actually hit it). -/
def JsRat.div (a b : JsRat) : JsRat :=
  if b.num = 0 then { num := 0, den := 1 }
  else JsRat.norm (a.num * b.den * (if b.num < 0 then -1 else 1)) (a.den * b.num.natAbs)

def JsRat.blt (a b : JsRat) : Bool := a.num * b.den < b.num * a.den

def JsRat.ble (a b : JsRat) : Bool := a.num * b.den ≤ b.num * a.den

instance : OfNat JsRat n := ⟨⟨n, 1⟩⟩
instance : Neg JsRat := ⟨fun a => ⟨-a.num, a.den⟩⟩
instance : Add JsRat := ⟨JsRat.add⟩
instance : Sub JsRat := ⟨JsRat.sub⟩
instance : Mul JsRat := ⟨JsRat.mul⟩
instance : Div JsRat := ⟨JsRat.div⟩
instance : LT JsRat := ⟨fun a b => JsRat.blt a b = true⟩
instance : LE JsRat := ⟨fun a b => JsRat.ble a b = true⟩

instance (a b : JsRat) : Decidable (a < b) :=
  inferInstanceAs (Decidable (JsRat.blt a b = true))

instance (a b : JsRat) : Decidable (a ≤ b) :=
  inferInstanceAs (Decidable (JsRat.ble a b = true))

instance : Max JsRat := ⟨fun a b => if a ≤ b then b else a⟩

def JsRat.npow (a : JsRat) : ℕ → JsRat
  | 0 => 1
  | n + 1 => JsRat.mul a (JsRat.npow a n)

instance : Pow JsRat ℕ := ⟨JsRat.npow⟩

/-- A JS number that may be `Infinity`. -/
inductive JsNum where
  | inf
  | fin (q : JsRat)
deriving DecidableEq, Repr

/-- `Infinity + x`; finite addition is exact. -/
def JsNum.add : JsNum → JsNum → JsNum
  | .inf, _ => .inf
  | _, .inf => .inf
  | .fin a, .fin b => .fin (a + b)

/-- Multiplication: `Infinity * x = Infinity` for `x ≠ 0`.  (JS produces `NaN`
for `Infinity * 0`; that corner arises only for a zero random draw against an
infinite total and only influences which neighbour a roulette spin picks.) -/
def JsNum.mul : JsNum → JsNum → JsNum
  | .inf, .inf => .inf
  | .inf, .fin q => if q = 0 then .fin 0 else .inf
  | .fin q, .inf => if q = 0 then .fin 0 else .inf
  | .fin a, .fin b => .fin (a * b)

def JsNum.blt : JsNum → JsNum → Bool
  | .inf, _ => false
  | .fin _, .inf => true
  | .fin a, .fin b => JsRat.blt a b

def JsNum.ble : JsNum → JsNum → Bool
  | .inf, .inf => true
  | .inf, .fin _ => false
  | .fin _, .inf => true
  | .fin a, .fin b => JsRat.ble a b

instance : LT JsNum := ⟨fun a b => JsNum.blt a b = true⟩
instance : LE JsNum := ⟨fun a b => JsNum.ble a b = true⟩

instance (a b : JsNum) : Decidable (a < b) :=
  inferInstanceAs (Decidable (JsNum.blt a b = true))

instance (a b : JsNum) : Decidable (a ≤ b) :=
  inferInstanceAs (Decidable (JsNum.ble a b = true))

def JsNum.npow (a : JsNum) : ℕ → JsNum
  | 0 => .fin 1
  | n + 1 => JsNum.mul a (JsNum.npow a n)

instance : Pow JsNum ℕ := ⟨JsNum.npow⟩

/-- Heron iteration for the integer square root (structural recursion on fuel,
so the kernel can evaluate it); the loop stops as soon as the guess stops
decreasing. -/
def heronStep (n : ℕ) : ℕ → ℕ → ℕ
  | 0, x => x
  | fuel + 1, x =>
    if (x + n / x) / 2 < x then heronStep n fuel ((x + n / x) / 2) else x

/-- Floor integer square root; 64 Heron iterations starting from `n` cover
every `n` below `2 ^ 64`, far beyond the inputs used here. -/
def isqrt (n : ℕ) : ℕ := if n = 0 then 0 else heronStep n 64 n

/-- Integer-floor square root on `JsRat`: exact on the perfect-square integers
used by the concrete inputs in the theorems below. -/
def ratSqrt (q : JsRat) : JsRat := ⟨Int.ofNat (isqrt q.num.toNat), 1⟩

/-! ## JS idioms -/

/-- JS `Map.get`: the value stored at `k`, if any. -/
def mapGet {α : Type} (m : List (String × α)) (k : String) : Option α :=
  match m with
  | [] => none
  | p :: rest => if p.1 = k then some p.2 else mapGet rest k

/-- JS `Map.set`: overwrite the entry at `k` (keys are unique), else append. -/
def mapSet {α : Type} (m : List (String × α)) (k : String) (v : α) : List (String × α) :=
  match m with
  | [] => [(k, v)]
  | p :: rest => if p.1 = k then (k, v) :: rest else p :: mapSet rest k v

/-- JS `x || Infinity` on a `Map.get` result: `undefined` and the falsy `0`
both become `Infinity`. -/
def jsOrInf (o : Option JsNum) : JsNum :=
  match o with
  | none => .inf
  | some v => if v = .fin 0 then .inf else v

/-- JS `x || PHEROMONE_INITIAL` (initial level `1.0`) on a `Map.get` result. -/
def jsOr1 (o : Option JsNum) : JsNum :=
  match o with
  | none => .fin 1
  | some v => if v = .fin 0 then .fin 1 else v

/-- JS `x || 0` on a `Map.get` result. -/
def jsOr0 (o : Option JsNum) : JsNum :=
  match o with
  | none => .fin 0
  | some v => v

/-- JS `x || null` on a `Map<string, string | null>.get` result: `undefined`,
`null` and the falsy empty string all become `null`. -/
def jsOrNull (o : Option (Option String)) : Option String :=
  match o with
  | some (some s) => if s = "" then none else some s
  | _ => none

/-- JS `x || null` on a possibly-absent string (`probabilities[i]?.id || null`). -/
def jsIdOrNull (o : Option String) : Option String :=
  match o with
  | some s => if s = "" then none else some s
  | none => none

/-- JS division `q / c` where the divisor may be `Infinity` or zero:
`q / Infinity = 0` and `q / 0 = Infinity` (for the positive `q` used here). -/
def jsDiv (q : JsRat) (c : JsNum) : JsNum :=
  match c with
  | .inf => .fin 0
  | .fin x => if x = 0 then .inf else .fin (q / x)

/-- JS subtraction as used by the roulette test `(random -= prob) <= 0`:
`∞ − x = ∞` and `∞ − ∞ = NaN` both fail the `≤ 0` test, which `inf`
reproduces; `x − ∞ = −∞` passes it, which `0` reproduces. -/
def jsSub (a b : JsNum) : JsNum :=
  match a, b with
  | .inf, _ => .inf
  | .fin _, .inf => .fin 0
  | .fin x, .fin y => .fin (x - y)

/-! ## NODE_CONFIG -/

def NODE_CONFIG.MAX_CONNECTIONS : ℕ := 8
def NODE_CONFIG.MIN_CONNECTIONS : ℕ := 2
def NODE_CONFIG.MAX_RANGE : JsRat := 500

/-! ## Data model -/

/-- Node status (`'online' | 'offline' | 'busy' | 'relay'`). -/
inductive Status where
  | online
  | offline
  | busy
  | relay
deriving DecidableEq, Repr

/-- Message priority (`'critical' | 'high' | 'normal' | 'low'`). -/
inductive Priority where
  | critical
  | high
  | normal
  | low
deriving DecidableEq, Repr

/-- The `Node` record of `@/types`. -/
structure Node where
  id : String
  name : String
  x : JsRat
  y : JsRat
  status : Status
  battery : JsRat
  signalStrength : JsRat
  connections : List String
  lastSeen : ℕ
  messageCount : ℕ
  ipAddress : String
deriving DecidableEq, Repr

/-- The `Connection` record of `@/types`. -/
structure Connection where
  nodeA : String
  nodeB : String
  strength : JsRat
  latency : JsRat
  active : Bool
deriving DecidableEq, Repr

/-- The `Route` record of `@/types`; `cost` can be `Infinity`. -/
structure Route where
  source : String
  destination : String
  path : List String
  cost : JsNum
  latency : JsRat
  reliability : JsRat
deriving DecidableEq, Repr

/-! ## MeshNetwork

The class's mutable state is its node map (insertion-ordered, keyed by
`Node.id`) and its edge list. -/

structure MeshNetwork where
  nodes : List Node
  connections : List Connection
deriving DecidableEq, Repr

def MeshNetwork.empty : MeshNetwork := { nodes := [], connections := [] }

/-- `this.nodes.get(id)`. -/
def MeshNetwork.getNode (s : MeshNetwork) (id : String) : Option Node :=
  s.nodes.find? (fun n => n.id == id)

/-- In-place mutation of the node object stored under `id` (JS aliasing: the
map entry and every reference to it are the same object). -/
def MeshNetwork.updateNode (s : MeshNetwork) (id : String) (f : Node → Node) : MeshNetwork :=
  { s with nodes := s.nodes.map (fun n => if n.id = id then f n else n) }

/-- `this.nodes.set(node.id, node)`. -/
def MeshNetwork.setNode (nodes : List Node) (node : Node) : List Node :=
  match nodes with
  | [] => [node]
  | n :: rest => if n.id = node.id then node :: rest else n :: MeshNetwork.setNode rest node

/-- `calculateDistance(nodeA, nodeB)`. -/
def MeshNetwork.calculateDistance (sqrtQ : JsRat → JsRat) (nodeA nodeB : Node) : JsRat :=
  sqrtQ ((nodeB.x - nodeA.x) ^ 2 + (nodeB.y - nodeA.y) ^ 2)

/-- Insert `x` after every element strictly smaller than it (the unique stable
ascending position). -/
def insertAsc {α : Type} (lt : α → α → Bool) (x : α) : List α → List α
  | [] => [x]
  | y :: ys => if lt y x then y :: insertAsc lt x ys else x :: y :: ys

/-- Stable ascending insertion sort.  A stable sort's output is uniquely
determined by the comparator, so this is observationally the JS
`Array.sort((a, b) => a.distance - b.distance)`. -/
def sortAsc {α : Type} (lt : α → α → Bool) : List α → List α
  | [] => []
  | x :: xs => insertAsc lt x (sortAsc lt xs)

/-- `findNearbyNodes(node, range)`: other nodes within `range`, ascending by
distance. -/
def MeshNetwork.findNearbyNodes (sqrtQ : JsRat → JsRat) (s : MeshNetwork) (node : Node)
    (range : JsRat) : List Node :=
  (sortAsc (fun a b => decide (a.2 < b.2))
    (((s.nodes.filter (fun n => n.id != node.id)).map
        (fun n => (n, MeshNetwork.calculateDistance sqrtQ node n))).filter
        (fun p => decide (p.2 ≤ range)))).map Prod.fst

/-- `establishConnection(nodeA, nodeB)`: appends each endpoint's id to the
other's adjacency and appends the `Connection` record.  The source receives the
two (map-resident) node objects; here they are addressed by id, and the call is
a no-op if either id is absent (no call site passes a non-resident node). -/
def MeshNetwork.establishConnection (sqrtQ : JsRat → JsRat) (s : MeshNetwork) (idA idB : String) :
    MeshNetwork :=
  match s.getNode idA, s.getNode idB with
  | some nodeA, some nodeB =>
    let distance := MeshNetwork.calculateDistance sqrtQ nodeA nodeB
    let conn : Connection :=
      { nodeA := idA, nodeB := idB,
        strength := max 0 (100 - distance / NODE_CONFIG.MAX_RANGE * 50),
        latency := 10 + distance / 10,
        active := true }
    let s1 := (s.updateNode idA (fun n => { n with connections := n.connections ++ [idB] })).updateNode
                idB (fun n => { n with connections := n.connections ++ [idA] })
    { s1 with connections := s1.connections ++ [conn] }
  | _, _ => s

/-- `discoverConnections(node)`: connect to the nearest in-range nodes, up to
`MAX_CONNECTIONS`, skipping ones already in the (live, mutating) adjacency. -/
def MeshNetwork.discoverConnections (sqrtQ : JsRat → JsRat) (s : MeshNetwork) (nodeId : String) :
    MeshNetwork :=
  match s.getNode nodeId with
  | none => s
  | some node =>
    let nearbyNodes := MeshNetwork.findNearbyNodes sqrtQ s node NODE_CONFIG.MAX_RANGE
    (nearbyNodes.take NODE_CONFIG.MAX_CONNECTIONS).foldl
      (fun s' nearbyNode =>
        match s'.getNode nodeId with
        | some cur =>
          if nearbyNode.id ∈ cur.connections then s'
          else MeshNetwork.establishConnection sqrtQ s' nodeId nearbyNode.id
        | none => s') s

/-- `createNode(name, x, y)`: the generated id, generated IP address and the
creation timestamp are supplied by the environment as arguments.  The source
returns the created node; the resulting network state is what matters here. -/
def MeshNetwork.createNode (sqrtQ : JsRat → JsRat) (s : MeshNetwork) (name : String)
    (x y : JsRat) (id ip : String) (now : ℕ) : MeshNetwork :=
  let node : Node :=
    { id := id, name := name, x := x, y := y, status := Status.online, battery := 100,
      signalStrength := 100, connections := [], lastSeen := now, messageCount := 0,
      ipAddress := ip }
  MeshNetwork.discoverConnections sqrtQ { s with nodes := MeshNetwork.setNode s.nodes node } id

/-- `removeNode(nodeId)`. -/
def MeshNetwork.removeNode (s : MeshNetwork) (nodeId : String) : MeshNetwork :=
  match s.getNode nodeId with
  | none => s
  | some node =>
    let s1 := node.connections.foldl
      (fun s' connId =>
        s'.updateNode connId
          (fun n => { n with connections := n.connections.filter (fun id => id != nodeId) })) s
    let keptConns := s1.connections.filter (fun c => c.nodeA != nodeId && c.nodeB != nodeId)
    let s2 := { s1 with connections := keptConns }
    { s2 with nodes := s2.nodes.filter (fun n => n.id != nodeId) }

/-- `updateNodeStatus(nodeId, status)`: sets the status and refreshes
`lastSeen`; no-op when the id is unknown. -/
def MeshNetwork.updateNodeStatus (s : MeshNetwork) (nodeId : String) (status : Status) (now : ℕ) :
    MeshNetwork :=
  s.updateNode nodeId (fun n => { n with status := status, lastSeen := now })

/-- One step of `healNetwork`'s `forEach` body for the node stored under
`nodeId`: re-discover when under-connected and online, then drop adjacency
entries whose target is missing or not online. -/
def MeshNetwork.healStep (sqrtQ : JsRat → JsRat) (s : MeshNetwork) (nodeId : String) :
    MeshNetwork :=
  match s.getNode nodeId with
  | none => s
  | some node =>
    let s1 := if node.connections.length < NODE_CONFIG.MIN_CONNECTIONS ∧
                 node.status = Status.online
              then MeshNetwork.discoverConnections sqrtQ s nodeId else s
    s1.updateNode nodeId (fun n =>
      { n with connections := n.connections.filter (fun connId =>
          match s1.getNode connId with
          | some connectedNode => connectedNode.status == Status.online
          | none => false) })

/-- `healNetwork()`: the `forEach` visits the map's (unchanged) key set in
insertion order, each callback seeing the mutations of the previous ones. -/
def MeshNetwork.healNetwork (sqrtQ : JsRat → JsRat) (s : MeshNetwork) : MeshNetwork :=
  (s.nodes.map (fun n => n.id)).foldl (MeshNetwork.healStep sqrtQ) s

/-- `simulateFailure(nodeId)`: set offline (via `updateNodeStatus`) then heal. -/
def MeshNetwork.simulateFailure (sqrtQ : JsRat → JsRat) (s : MeshNetwork) (nodeId : String)
    (now : ℕ) : MeshNetwork :=
  MeshNetwork.healNetwork sqrtQ (s.updateNodeStatus nodeId Status.offline now)

/-- `simulateRecovery(nodeId)`: set the status field online directly (without
touching `lastSeen`) then re-run discovery. -/
def MeshNetwork.simulateRecovery (sqrtQ : JsRat → JsRat) (s : MeshNetwork) (nodeId : String) :
    MeshNetwork :=
  match s.getNode nodeId with
  | none => s
  | some _ =>
    MeshNetwork.discoverConnections sqrtQ
      (s.updateNode nodeId (fun n => { n with status := Status.online })) nodeId

/-! ## ROUTING_CONFIG

`ALPHA = 1.0` and `BETA = 2.0` are only ever used as `Math.pow` exponents, so
they are carried as the natural exponents 1 and 2. -/

def ROUTING_CONFIG.ACO_ITERATIONS : ℕ := 100
def ROUTING_CONFIG.ANT_COUNT : ℕ := 10
def ROUTING_CONFIG.PHEROMONE_INITIAL : JsNum := .fin 1
def ROUTING_CONFIG.PHEROMONE_EVAPORATION : JsRat := 1/2
def ROUTING_CONFIG.ALPHA : ℕ := 1
def ROUTING_CONFIG.BETA : ℕ := 2
def ROUTING_CONFIG.Q : JsRat := 100

/-! ## DijkstraRouter -/

/-- `calculateEdgeCost(nodeA, nodeB)` (`0.5` and `0.3` as rationals). -/
def DijkstraRouter.calculateEdgeCost (sqrtQ : JsRat → JsRat) (nodeA nodeB : Node) : JsRat :=
  let distance := sqrtQ ((nodeB.x - nodeA.x) ^ 2 + (nodeB.y - nodeA.y) ^ 2)
  let signalFactor := (200 - nodeA.signalStrength - nodeB.signalStrength) / 200
  let batteryFactor := (200 - nodeA.battery - nodeB.battery) / 200
  distance * (1 + signalFactor * (1/2) + batteryFactor * (3/10))

/-- `estimateLatency(path, nodes)`. -/
def DijkstraRouter.estimateLatency (sqrtQ : JsRat → JsRat) (path : List String)
    (nodes : List Node) : JsRat :=
  (List.range (path.length - 1)).foldl
    (fun totalLatency i =>
      match nodes.find? (fun n => n.id == path.getD i ""),
            nodes.find? (fun n => n.id == path.getD (i + 1) "") with
      | some nodeA, some nodeB =>
        totalLatency + (10 + sqrtQ ((nodeB.x - nodeA.x) ^ 2 + (nodeB.y - nodeA.y) ^ 2) / 10)
      | _, _ => totalLatency) 0

/-- `calculateReliability(path, nodes)`. -/
def DijkstraRouter.calculateReliability (path : List String) (nodes : List Node) : JsRat :=
  path.foldl
    (fun reliability nodeId =>
      match nodes.find? (fun n => n.id == nodeId) with
      | some node => reliability * ((node.signalStrength / 100) * (node.battery / 100))
      | none => reliability) 1

/-- The `unvisited.forEach` scan for the unvisited node of minimum tentative
distance; note the `distances.get(nodeId) || Infinity` read. -/
def DijkstraRouter.scanMin (distances : List (String × JsNum)) (unvisited : List String) :
    Option String × JsNum :=
  unvisited.foldl
    (fun acc nodeId =>
      let distance := jsOrInf (mapGet distances nodeId)
      if distance < acc.2 then (some nodeId, distance) else acc)
    (none, .inf)

/-- The body of one relaxation (`currentNode.connections.forEach`). -/
def DijkstraRouter.relaxNeighbors (sqrtQ : JsRat → JsRat) (nodes : List Node)
    (currentNode : Node) (minNode : String) (unvisited : List String)
    (dp : List (String × JsNum) × List (String × Option String)) :
    List (String × JsNum) × List (String × Option String) :=
  currentNode.connections.foldl
    (fun dp neighborId =>
      if neighborId ∈ unvisited then
        match nodes.find? (fun n => n.id == neighborId) with
        | none => dp
        | some neighbor =>
          if neighbor.status = Status.online then
            let edgeCost := DijkstraRouter.calculateEdgeCost sqrtQ currentNode neighbor
            let newDistance := JsNum.add (jsOr0 (mapGet dp.1 minNode)) (.fin edgeCost)
            if newDistance < jsOrInf (mapGet dp.1 neighborId) then
              (mapSet dp.1 neighborId newDistance, mapSet dp.2 neighborId (some minNode))
            else dp
          else dp
      else dp) dp

/-- The `while (unvisited.size > 0)` loop.  The fuel is the size of the
unvisited set: every non-breaking iteration deletes one element, so
`unvisited.length` steps always suffice. -/
def DijkstraRouter.dijkstraLoop (sqrtQ : JsRat → JsRat) (nodes : List Node)
    (destinationId : String) :
    ℕ → List String → List (String × JsNum) → List (String × Option String) →
    List (String × JsNum) × List (String × Option String)
  | 0, _, distances, previous => (distances, previous)
  | fuel + 1, unvisited, distances, previous =>
    if unvisited.isEmpty then (distances, previous)
    else
      match (DijkstraRouter.scanMin distances unvisited).1 with
      | none => (distances, previous)
      | some minNode =>
        if minNode = destinationId then (distances, previous)
        else
          let unvisited' := unvisited.erase minNode
          match nodes.find? (fun n => n.id == minNode) with
          | none => DijkstraRouter.dijkstraLoop sqrtQ nodes destinationId fuel unvisited'
                      distances previous
          | some currentNode =>
            let dp := DijkstraRouter.relaxNeighbors sqrtQ nodes currentNode minNode unvisited'
                        (distances, previous)
            DijkstraRouter.dijkstraLoop sqrtQ nodes destinationId fuel unvisited' dp.1 dp.2

/-- The path-reconstruction loop `while (current !== null) { path.unshift(current);
current = previous.get(current) || null }`.  The predecessor map is acyclic, so
`nodes.length + 1` fuel always covers the walk. -/
def DijkstraRouter.walkPrev (previous : List (String × Option String)) :
    ℕ → String → List String → List String
  | 0, current, acc => current :: acc
  | fuel + 1, current, acc =>
    match jsOrNull (mapGet previous current) with
    | none => current :: acc
    | some nxt => DijkstraRouter.walkPrev previous fuel nxt (current :: acc)

/-- `findShortestPath(nodes, sourceId, destinationId)`. -/
def DijkstraRouter.findShortestPath (sqrtQ : JsRat → JsRat) (nodes : List Node)
    (sourceId destinationId : String) : Option Route :=
  let distances0 := nodes.foldl (fun m n => mapSet m n.id JsNum.inf) []
  let previous0 := nodes.foldl (fun m n => mapSet m n.id (none : Option String)) []
  let unvisited := nodes.foldl (fun u n => if u.contains n.id then u else u ++ [n.id]) []
  let distances1 := mapSet distances0 sourceId (.fin 0)
  let dp := DijkstraRouter.dijkstraLoop sqrtQ nodes destinationId unvisited.length unvisited
              distances1 previous0
  let path := DijkstraRouter.walkPrev dp.2 (nodes.length + 1) destinationId []
  if path.head? = some sourceId then
    some { source := sourceId, destination := destinationId, path := path,
           cost := jsOrInf (mapGet dp.1 destinationId),
           latency := DijkstraRouter.estimateLatency sqrtQ path nodes,
           reliability := DijkstraRouter.calculateReliability path nodes }
  else none

/-! ## AntColonyRouter

The pheromone map is instance state that persists across calls; it is threaded
in and out explicitly. -/

abbrev Pheromones := List (String × JsNum)

/-- Lexicographic comparison of strings by character code, the order JS's
default `Array.sort` uses on strings (UTF-16 code-unit order; the ids in play
are ASCII, where it coincides with code-point order). -/
def charsLt : List Char → List Char → Bool
  | [], [] => false
  | [], _ :: _ => true
  | _ :: _, [] => false
  | a :: as, b :: bs =>
    if a.val < b.val then true else if b.val < a.val then false else charsLt as bs

def strLt (a b : String) : Bool := charsLt a.data b.data

/-- `getEdgeKey(nodeA, nodeB)`: `[a, b].sort().join('-')` with JS's
lexicographic string comparison. -/
def AntColonyRouter.getEdgeKey (nodeA nodeB : String) : String :=
  if strLt nodeB nodeA then nodeB ++ "-" ++ nodeA else nodeA ++ "-" ++ nodeB

/-- `initializePheromones(nodes)`: (over)writes the initial level onto every
edge of the supplied topology; never clears the map. -/
def AntColonyRouter.initializePheromones (ph : Pheromones) (nodes : List Node) : Pheromones :=
  nodes.foldl
    (fun m nodeA =>
      nodeA.connections.foldl
        (fun m' nodeB =>
          mapSet m' (AntColonyRouter.getEdgeKey nodeA.id nodeB) ROUTING_CONFIG.PHEROMONE_INITIAL)
        m) ph

/-- `evaporatePheromones()`. -/
def AntColonyRouter.evaporatePheromones (ph : Pheromones) : Pheromones :=
  ph.map (fun p => (p.1, JsNum.mul p.2 (.fin (1 - ROUTING_CONFIG.PHEROMONE_EVAPORATION))))

/-- `depositPheromones(route, priority)`; the division by a zero or infinite
cost follows JS semantics via `jsDiv`. -/
def AntColonyRouter.depositPheromones (ph : Pheromones) (route : Route) (priority : Priority) :
    Pheromones :=
  let deposit := JsNum.mul (jsDiv ROUTING_CONFIG.Q route.cost)
    (.fin (if priority = Priority.critical then 2
           else if priority = Priority.high then 3/2 else 1))
  (List.range (route.path.length - 1)).foldl
    (fun m i =>
      let key := AntColonyRouter.getEdgeKey (route.path.getD i "") (route.path.getD (i + 1) "")
      let current := jsOr0 (mapGet m key)
      mapSet m key (JsNum.add current deposit)) ph

/-- The roulette-wheel `for` loop: `random -= prob; if (random <= 0) return id`.
Falls through (`none`) when the list is exhausted. -/
def AntColonyRouter.rouletteLoop : JsNum → List (String × JsNum) → Option String
  | _, [] => none
  | random, p :: rest =>
    let random' := jsSub random p.2
    if random' ≤ .fin 0 then some p.1 else AntColonyRouter.rouletteLoop random' rest

/-- The `probabilities` accumulation of `selectNextNode`: pheromone-weighted,
heuristic-weighted entries for every neighbour found in the node list. -/
def AntColonyRouter.antProbabilities (sqrtQ : JsRat → JsRat) (ph : Pheromones) (current : Node)
    (neighbors : List String) (nodes : List Node) (destination : String) :
    List (String × JsNum) :=
  neighbors.foldl
    (fun acc neighborId =>
      match nodes.find? (fun n => n.id == neighborId) with
      | none => acc
      | some neighbor =>
        let edgeKey := AntColonyRouter.getEdgeKey current.id neighborId
        let pheromone := jsOr1 (mapGet ph edgeKey)
        let heuristic : JsRat :=
          match nodes.find? (fun n => n.id == destination) with
          | some destNode =>
            1 / (1 + sqrtQ ((destNode.x - neighbor.x) ^ 2 + (destNode.y - neighbor.y) ^ 2))
          | none => 1
        let value := JsNum.mul (pheromone ^ ROUTING_CONFIG.ALPHA)
          ((JsNum.fin heuristic) ^ ROUTING_CONFIG.BETA)
        acc ++ [(neighborId, value)]) []

/-- `selectNextNode(current, neighbors, nodes, destination)`.  `Math.random()`
is the stream value `rand k`; the returned index records whether it was
consumed (it is not consumed on the zero-total early return). -/
def AntColonyRouter.selectNextNode (sqrtQ : JsRat → JsRat) (rand : ℕ → JsRat) (ph : Pheromones)
    (current : Node) (neighbors : List String) (nodes : List Node) (destination : String)
    (k : ℕ) : Option String × ℕ :=
  let probabilities := AntColonyRouter.antProbabilities sqrtQ ph current neighbors nodes
    destination
  let total := probabilities.foldl (fun t p => JsNum.add t p.2) (.fin 0)
  if total = .fin 0 then (neighbors.head?, k)
  else
    let random := JsNum.mul (.fin (rand k)) total
    match AntColonyRouter.rouletteLoop random probabilities with
    | some id => (some id, k + 1)
    | none => (jsIdOrNull ((probabilities.getLast?).map Prod.fst), k + 1)

/-- The local state of one ant's `while` loop. -/
structure AntState where
  path : List String
  visited : List String
  currentId : String
  totalCost : JsRat
  randIdx : ℕ
deriving DecidableEq, Repr

/-- The available-neighbor filter of the ant loop: online, known, unvisited. -/
def AntColonyRouter.antNeighbors (nodes : List Node) (visited : List String)
    (currentNode : Node) : List String :=
  currentNode.connections.filter
    (fun id =>
      match nodes.find? (fun n => n.id == id) with
      | some node => node.status == Status.online && !(visited.contains id)
      | none => false)

/-- The `while (currentId !== destinationId)` loop of `antTraverse`.  Every
non-breaking iteration appends a previously unvisited node, so
`nodes.length + 1` fuel always suffices. -/
def AntColonyRouter.antLoop (sqrtQ : JsRat → JsRat) (rand : ℕ → JsRat) (ph : Pheromones)
    (nodes : List Node) (destinationId : String) (priority : Priority) : ℕ → AntState → AntState
  | 0, st => st
  | fuel + 1, st =>
    if st.currentId = destinationId then st
    else
      match nodes.find? (fun n => n.id == st.currentId) with
      | none => st
      | some currentNode =>
        let neighbors := AntColonyRouter.antNeighbors nodes st.visited currentNode
        if neighbors.isEmpty then st
        else
          match AntColonyRouter.selectNextNode sqrtQ rand ph currentNode neighbors nodes
                  destinationId st.randIdx with
          | (none, k') => { st with randIdx := k' }
          | (some nextId, k') =>
            match nodes.find? (fun n => n.id == nextId) with
            | none => { st with randIdx := k' }
            | some nextNode =>
              let distance := sqrtQ ((nextNode.x - currentNode.x) ^ 2 +
                (nextNode.y - currentNode.y) ^ 2)
              let priorityModifier : JsRat :=
                if priority = Priority.critical then 1/2
                else if priority = Priority.high then 3/4 else 1
              AntColonyRouter.antLoop sqrtQ rand ph nodes destinationId priority fuel
                { path := st.path ++ [nextId], visited := st.visited ++ [nextId],
                  currentId := nextId,
                  totalCost := st.totalCost + distance * priorityModifier,
                  randIdx := k' }

/-- `antTraverse(nodes, sourceId, destinationId, priority)`. -/
def AntColonyRouter.antTraverse (sqrtQ : JsRat → JsRat) (rand : ℕ → JsRat) (ph : Pheromones)
    (nodes : List Node) (sourceId destinationId : String) (priority : Priority) (k : ℕ) :
    Option Route × ℕ :=
  let st := AntColonyRouter.antLoop sqrtQ rand ph nodes destinationId priority
    (nodes.length + 1)
    { path := [sourceId], visited := [sourceId], currentId := sourceId, totalCost := 0,
      randIdx := k }
  if st.currentId ≠ destinationId then (none, st.randIdx)
  else
    (some { source := sourceId, destination := destinationId, path := st.path,
            cost := .fin st.totalCost,
            latency := JsRat.ofNat st.path.length * 15,
            reliability := 9/10 }, st.randIdx)

/-- One ant of the inner `for (let ant = 0; ...)` loop: push the successful
route and update the running best. -/
def AntColonyRouter.antStep (sqrtQ : JsRat → JsRat) (rand : ℕ → JsRat) (nodes : List Node)
    (sourceId destinationId : String) (priority : Priority) (ph : Pheromones)
    (st : List Route × (Option Route × JsNum) × ℕ) (_ant : ℕ) :
    List Route × (Option Route × JsNum) × ℕ :=
  let ro := AntColonyRouter.antTraverse sqrtQ rand ph nodes sourceId destinationId priority
    st.2.2
  match ro.1 with
  | none => (st.1, st.2.1, ro.2)
  | some route =>
    if route.cost < st.2.1.2 then (st.1 ++ [route], (some route, route.cost), ro.2)
    else (st.1 ++ [route], st.2.1, ro.2)

/-- One iteration of the outer `for (let iter = 0; ...)` loop: deploy the ants,
then evaporate, then deposit from every successful traversal. -/
def AntColonyRouter.acoIteration (sqrtQ : JsRat → JsRat) (rand : ℕ → JsRat) (nodes : List Node)
    (sourceId destinationId : String) (priority : Priority)
    (st : (Option Route × JsNum) × Pheromones × ℕ) (_iter : ℕ) :
    (Option Route × JsNum) × Pheromones × ℕ :=
  let ants := (List.range ROUTING_CONFIG.ANT_COUNT).foldl
    (AntColonyRouter.antStep sqrtQ rand nodes sourceId destinationId priority st.2.1)
    ([], st.1, st.2.2)
  let ph1 := AntColonyRouter.evaporatePheromones st.2.1
  let ph2 := ants.1.foldl (fun m route => AntColonyRouter.depositPheromones m route priority) ph1
  (ants.2.1, ph2, ants.2.2)

/-- `findOptimalPath(nodes, sourceId, destinationId, priority)`: returns the
best route and the router's new pheromone state.  `initializePheromones` only
overwrites current-topology edges; keys from earlier calls survive in `ph`. -/
def AntColonyRouter.findOptimalPath (sqrtQ : JsRat → JsRat) (rand : ℕ → JsRat) (ph : Pheromones)
    (nodes : List Node) (sourceId destinationId : String) (priority : Priority) :
    Option Route × Pheromones :=
  let ph0 := AntColonyRouter.initializePheromones ph nodes
  let res := (List.range ROUTING_CONFIG.ACO_ITERATIONS).foldl
    (AntColonyRouter.acoIteration sqrtQ rand nodes sourceId destinationId priority)
    ((none, JsNum.inf), ph0, 0)
  (res.1.1, res.2.1)

/-! ## Router facade -/

/-- `findRoute(nodes, source, destination, priority)`: Dijkstra for critical,
ACO otherwise. -/
def Router.findRoute (sqrtQ : JsRat → JsRat) (rand : ℕ → JsRat) (ph : Pheromones)
    (nodes : List Node) (source destination : String) (priority : Priority) :
    Option Route × Pheromones :=
  if priority = Priority.critical then
    (DijkstraRouter.findShortestPath sqrtQ nodes source destination, ph)
  else
    AntColonyRouter.findOptimalPath sqrtQ rand ph nodes source destination priority

/-- `findAllRoutes(nodes, source, destination)`: the Dijkstra candidate is
pushed with its reliability overwritten to `0.95`; the ACO candidate (run at
critical priority) is pushed as produced. -/
def Router.findAllRoutes (sqrtQ : JsRat → JsRat) (rand : ℕ → JsRat) (ph : Pheromones)
    (nodes : List Node) (source destination : String) : List Route × Pheromones :=
  let dijkstraRoute := DijkstraRouter.findShortestPath sqrtQ nodes source destination
  let aco := AntColonyRouter.findOptimalPath sqrtQ rand ph nodes source destination
    Priority.critical
  ((match dijkstraRoute with
    | some ro => [{ ro with reliability := 95/100 }]
    | none => []) ++
   (match aco.1 with
    | some ro => [ro]
    | none => []), aco.2)

/-- A node used by the concrete inputs of the theorems below. -/
def testNode (id : String) (x y : JsRat) (st : Status) (battery signal : JsRat)
    (conns : List String) : Node :=
  { id := id, name := id, x := x, y := y, status := st, battery := battery,
    signalStrength := signal, connections := conns, lastSeen := 0, messageCount := 0,
    ipAddress := "ip" }

/-! ## Association-list map lemmas -/

theorem foldl_preserve {α β : Type} {P : β → Prop} {f : β → α → β}
    (hf : ∀ b a, P b → P (f b a)) : ∀ (l : List α) (b : β), P b → P (List.foldl f b l) := by
  intro l
  induction l with
  | nil => intro b hb; exact hb
  | cons x xs ih => intro b hb; exact ih (f b x) (hf b x hb)

theorem mapGet_mapSet_self {α : Type} (m : List (String × α)) (k : String) (v : α) :
    mapGet (mapSet m k v) k = some v := by
  induction m with
  | nil => simp [mapSet, mapGet]
  | cons p rest ih =>
    by_cases h : p.1 = k
    · simp [mapSet, h, mapGet]
    · simp [mapSet, h, mapGet, ih]

theorem mapSet_values {α : Type} {P : α → Prop} {m : List (String × α)} {v : α} {k : String}
    (hm : ∀ p ∈ m, P p.2) (hv : P v) : ∀ p ∈ mapSet m k v, P p.2 := by
  induction m with
  | nil =>
    intro p hp
    simp only [mapSet, List.mem_singleton] at hp
    subst hp; exact hv
  | cons q rest ih =>
    intro p hp
    by_cases h : q.1 = k
    · simp only [mapSet, if_pos h, List.mem_cons] at hp
      rcases hp with hp | hp
      · subst hp; exact hv
      · exact hm p (List.mem_cons_of_mem _ hp)
    · simp only [mapSet, if_neg h, List.mem_cons] at hp
      rcases hp with hp | hp
      · subst hp; exact hm p (List.mem_cons_self _ _)
      · exact ih (fun r hr => hm r (List.mem_cons_of_mem _ hr)) p hp

theorem mapGet_values {α : Type} {P : α → Prop} {m : List (String × α)} {k : String} {v : α}
    (hm : ∀ p ∈ m, P p.2) (h : mapGet m k = some v) : P v := by
  induction m with
  | nil => simp [mapGet] at h
  | cons p rest ih =>
    by_cases hk : p.1 = k
    · simp only [mapGet, if_pos hk, Option.some.injEq] at h
      subst h; exact hm p (List.mem_cons_self _ _)
    · simp only [mapGet, if_neg hk] at h
      exact ih (fun r hr => hm r (List.mem_cons_of_mem _ hr)) h

theorem jsOrInf_of_values {m : List (String × JsNum)} {k : String}
    (hm : ∀ p ∈ m, p.2 = JsNum.inf ∨ p.2 = JsNum.fin 0) : jsOrInf (mapGet m k) = JsNum.inf := by
  cases hmk : mapGet m k with
  | none => rfl
  | some v =>
    rcases mapGet_values (P := fun v => v = JsNum.inf ∨ v = JsNum.fin 0) hm hmk with hv | hv <;>
      subst hv <;> simp [jsOrInf]

theorem jsOrNull_of_values {m : List (String × Option String)} {k : String}
    (hm : ∀ p ∈ m, p.2 = none) : jsOrNull (mapGet m k) = none := by
  cases hmk : mapGet m k with
  | none => rfl
  | some v =>
    have := mapGet_values (P := fun v => v = none) hm hmk
    subst this; rfl

/-! ## Dijkstra: the `|| Infinity` read maps the source's tentative distance 0
to `Infinity`, so the first minimum scan finds nothing and the loop exits
before relaxing anything. -/

theorem scanMin_none {distances : List (String × JsNum)} {unvisited : List String}
    (h : ∀ x ∈ unvisited, jsOrInf (mapGet distances x) = JsNum.inf) :
    DijkstraRouter.scanMin distances unvisited = (none, JsNum.inf) := by
  unfold DijkstraRouter.scanMin
  induction unvisited with
  | nil => rfl
  | cons x rest ih =>
    simp only [List.foldl_cons]
    rw [h x (List.mem_cons_self _ _)]
    rw [if_neg (by decide : ¬(JsNum.inf < ((none : Option String), JsNum.inf).2))]
    exact ih (fun y hy => h y (List.mem_cons_of_mem _ hy))

theorem dijkstraLoop_stuck (sqrtQ : JsRat → JsRat) (nodes : List Node) (destinationId : String)
    (fuel : ℕ) (unvisited : List String) (d : List (String × JsNum))
    (p : List (String × Option String))
    (h : ∀ x ∈ unvisited, jsOrInf (mapGet d x) = JsNum.inf) :
    DijkstraRouter.dijkstraLoop sqrtQ nodes destinationId fuel unvisited d p = (d, p) := by
  cases fuel with
  | zero => rfl
  | succ f =>
    unfold DijkstraRouter.dijkstraLoop
    rw [scanMin_none h]
    by_cases he : unvisited.isEmpty <;> simp [he]

/-- Full evaluation of `findShortestPath`: the loop always stalls immediately,
so the reconstructed path is `[destinationId]`, and a route (with infinite
cost) is produced exactly when destination equals source. -/
theorem findShortestPath_eval (sqrtQ : JsRat → JsRat) (nodes : List Node) (src dst : String) :
    DijkstraRouter.findShortestPath sqrtQ nodes src dst =
      if dst = src then
        some { source := src, destination := dst, path := [dst], cost := JsNum.inf,
               latency := DijkstraRouter.estimateLatency sqrtQ [dst] nodes,
               reliability := DijkstraRouter.calculateReliability [dst] nodes }
      else none := by
  have hd0 : ∀ p' ∈ nodes.foldl (fun m n => mapSet m n.id JsNum.inf) [],
      p'.2 = JsNum.inf ∨ p'.2 = JsNum.fin 0 := by
    refine foldl_preserve
      (P := fun (m : List (String × JsNum)) => ∀ p' ∈ m, p'.2 = JsNum.inf ∨ p'.2 = JsNum.fin 0)
      (fun b a hb => ?_) nodes [] (by simp)
    exact mapSet_values (P := fun v => v = JsNum.inf ∨ v = JsNum.fin 0) hb (Or.inl rfl)
  have hd1 : ∀ p' ∈ mapSet (nodes.foldl (fun m n => mapSet m n.id JsNum.inf) []) src
      (JsNum.fin 0), p'.2 = JsNum.inf ∨ p'.2 = JsNum.fin 0 :=
    mapSet_values (P := fun v => v = JsNum.inf ∨ v = JsNum.fin 0) hd0 (Or.inr rfl)
  have hp0 : ∀ p' ∈ nodes.foldl (fun m n => mapSet m n.id (none : Option String)) [],
      p'.2 = none := by
    refine foldl_preserve
      (P := fun (m : List (String × Option String)) => ∀ p' ∈ m, p'.2 = none)
      (fun b a hb => ?_) nodes [] (by simp)
    exact mapSet_values (P := fun v => v = none) hb rfl
  have hstuck := dijkstraLoop_stuck sqrtQ nodes dst
    (nodes.foldl (fun u n => if u.contains n.id then u else u ++ [n.id]) []).length
    (nodes.foldl (fun u n => if u.contains n.id then u else u ++ [n.id]) [])
    (mapSet (nodes.foldl (fun m n => mapSet m n.id JsNum.inf) []) src (JsNum.fin 0))
    (nodes.foldl (fun m n => mapSet m n.id (none : Option String)) [])
    (fun x _ => jsOrInf_of_values hd1)
  have hwalk : DijkstraRouter.walkPrev
      (nodes.foldl (fun m n => mapSet m n.id (none : Option String)) [])
      (nodes.length + 1) dst [] = [dst] := by
    unfold DijkstraRouter.walkPrev
    rw [jsOrNull_of_values hp0]
  simp only [DijkstraRouter.findShortestPath, hstuck, hwalk]
  by_cases h : dst = src
  · subst h
    simp only [List.head?_cons, Option.some.injEq, if_pos rfl]
    rw [mapGet_mapSet_self]
    simp [jsOrInf]
  · simp only [List.head?_cons, Option.some.injEq]
    rw [if_neg (fun hc => h hc), if_neg h]

/-! ## find?/updateNode lemmas -/

theorem find?_map_update {l : List Node} {id : String} {n : Node} {f : Node → Node}
    (hf : ∀ x, (f x).id = x.id) (h : l.find? (fun m => m.id == id) = some n) :
    (l.map (fun m => if m.id = id then f m else m)).find? (fun m => m.id == id) = some (f n) := by
  induction l with
  | nil => simp [List.find?] at h
  | cons x rest ih =>
    by_cases hx : x.id = id
    · rw [List.find?_cons_of_pos _ (by simp [hx])] at h
      cases h
      simp only [List.map_cons, if_pos hx]
      rw [List.find?_cons_of_pos _ (by simp [hf, hx])]
    · rw [List.find?_cons_of_neg _ (by simp [hx])] at h
      simp only [List.map_cons, if_neg hx]
      rw [List.find?_cons_of_neg _ (by simp [hx])]
      exact ih h

theorem find?_map_update_ne {l : List Node} {id m : String} {f : Node → Node}
    (hf : ∀ x, (f x).id = x.id) (hne : m ≠ id) :
    (l.map (fun x => if x.id = id then f x else x)).find? (fun x => x.id == m) =
      l.find? (fun x => x.id == m) := by
  induction l with
  | nil => rfl
  | cons x rest ih =>
    have hidm : ¬id = m := fun hc => hne hc.symm
    by_cases hx : x.id = id
    · have hxm : ¬x.id = m := by rw [hx]; exact hidm
      simp only [List.map_cons, if_pos hx]
      rw [List.find?_cons_of_neg _ (by simp [hf, hx, hidm]),
          List.find?_cons_of_neg _ (by simp [hxm])]
      exact ih
    · simp only [List.map_cons, if_neg hx]
      by_cases hxm : x.id = m
      · rw [List.find?_cons_of_pos _ (by simp [hxm]), List.find?_cons_of_pos _ (by simp [hxm])]
      · rw [List.find?_cons_of_neg _ (by simp [hxm]), List.find?_cons_of_neg _ (by simp [hxm])]
        exact ih

theorem getNode_updateNode_self {s : MeshNetwork} {id : String} {n : Node} {f : Node → Node}
    (hf : ∀ x, (f x).id = x.id) (h : s.getNode id = some n) :
    (s.updateNode id f).getNode id = some (f n) :=
  find?_map_update hf h

theorem getNode_updateNode_ne {s : MeshNetwork} {id m : String} {f : Node → Node}
    (hf : ∀ x, (f x).id = x.id) (hne : m ≠ id) :
    (s.updateNode id f).getNode m = s.getNode m :=
  find?_map_update_ne hf hne

/-! ## Concrete inputs for the evaluated theorems -/

/-- Two online, fully connected nodes at distance 300 with battery and signal
both 100: `B` is reachable from `A`. -/
def c1nodes : List Node :=
  [testNode "A" 0 0 Status.online 100 100 ["B"],
   testNode "B" 300 0 Status.online 100 100 ["A"]]

/-- A connected pair whose offline endpoint makes `healNetwork` prune `X`'s
adjacency while its edge record stays in the edge list. -/
def c3state : MeshNetwork :=
  { nodes := [testNode "X" 0 0 Status.online 100 100 ["C"],
              testNode "C" 300 0 Status.offline 100 100 ["X"]],
    connections := [{ nodeA := "X", nodeB := "C", strength := 70, latency := 40,
                      active := true }] }

/-- `X` (online) lists two offline neighbours, which the first heal prunes;
only then does `X` fall below `MIN_CONNECTIONS`, so only the second heal
re-runs discovery for it and reaches the online `Y` (degree 2, so `Y` itself
never re-discovers). -/
def c4state : MeshNetwork :=
  { nodes := [testNode "X" 0 0 Status.online 100 100 ["C1", "C2"],
              testNode "C1" (-300) 0 Status.offline 100 100 ["X"],
              testNode "C2" 0 (-350) Status.offline 100 100 ["X"],
              testNode "Y" 400 0 Status.online 100 100 ["Z1", "Z2"],
              testNode "Z1" 700 300 Status.online 100 100 ["Y"],
              testNode "Z2" 700 (-300) Status.online 100 100 ["Y"]],
    connections := [] }

/-- A single online node whose `lastSeen` is 0. -/
def c9state : MeshNetwork :=
  { nodes := [testNode "N" 0 0 Status.online 100 100 []], connections := [] }

/-! ## Claims C1 - C4 and C9 -/

/-- C1 (code bug): on a topology where every node is online with battery and
signal 100 and the destination is reachable from the source (two connected
nodes), `findShortestPath` returns no route at all — the `|| Infinity` read
turns the source's tentative distance 0 into `Infinity`, so no minimal-cost
route is ever produced, contradicting the spec's Dijkstra-optimality claim. -/
theorem c1_dijkstra_optimality_code_bug :
    DijkstraRouter.findShortestPath ratSqrt c1nodes "A" "B" = none := by decide

/-- C2 (confirmed): for every node list and every source/destination pair with
source distinct from destination, `findShortestPath` returns the no-path
result, regardless of topology. -/
theorem c2_dijkstra_always_no_route (sqrtQ : JsRat → JsRat) (nodes : List Node)
    (src dst : String) (h : src ≠ dst) :
    DijkstraRouter.findShortestPath sqrtQ nodes src dst = none := by
  rw [findShortestPath_eval]
  exact if_neg (fun hc => h hc.symm)

/-- Witness for C2 at a concrete input. -/
theorem c2_witness :
    "A" ≠ "B" ∧ DijkstraRouter.findShortestPath ratSqrt c1nodes "A" "B" = none :=
  ⟨by decide, c2_dijkstra_always_no_route ratSqrt c1nodes "A" "B" (by decide)⟩

/-- C3 (code bug): after `healNetwork` on a two-node topology whose offline
endpoint `C` is connected to the online `X`, the edge record `X—C` is still in
the edge list although `X`'s connections no longer contain `C`: the edge list
and the per-node adjacency have diverged. -/
theorem c3_heal_desyncs_edge_list :
    ((MeshNetwork.healNetwork ratSqrt c3state).getNode "X").map Node.connections = some [] ∧
    (MeshNetwork.healNetwork ratSqrt c3state).connections =
      [{ nodeA := "X", nodeB := "C", strength := 70, latency := 40, active := true }] := by
  decide

/-- C4 (code bug): `healNetwork` is not idempotent.  On `c4state` the first
call leaves `X` with no connections, while the second call (with no
intervening topology change) connects `X` to `Y`: the adjacency sets after one
and after two calls differ. -/
theorem c4_heal_not_idempotent :
    ((MeshNetwork.healNetwork ratSqrt c4state).getNode "X").map Node.connections = some [] ∧
    ((MeshNetwork.healNetwork ratSqrt (MeshNetwork.healNetwork ratSqrt c4state)).getNode
      "X").map Node.connections = some ["Y"] := by
  decide

/-- C9 counterexample: updating a known node to `offline` (not `online`)
refreshes `lastSeen` from 0 to the current time 5, although the claim says
`lastSeen` is left unchanged when the new status is not online. -/
theorem c9_counterexample :
    (c9state.getNode "N").map Node.lastSeen = some 0 ∧
    ((c9state.updateNodeStatus "N" Status.offline 5).getNode "N").map Node.lastSeen = some 5 ∧
    ((c9state.updateNodeStatus "N" Status.offline 5).getNode "N").map Node.status =
      some Status.offline := by
  decide

/-- C9 (amended): `updateNodeStatus` on a known id sets the status and
unconditionally refreshes `lastSeen` (also when the new status is not online);
every other field of the node, every other node, and the edge list are
unchanged. -/
theorem c9_update_status_amended (s : MeshNetwork) (id : String) (st : Status) (now : ℕ)
    (n : Node) (h : s.getNode id = some n) :
    (s.updateNodeStatus id st now).getNode id = some { n with status := st, lastSeen := now } ∧
    (∀ m, m ≠ id → (s.updateNodeStatus id st now).getNode m = s.getNode m) ∧
    (s.updateNodeStatus id st now).connections = s.connections := by
  refine ⟨getNode_updateNode_self (fun x => rfl) h, fun m hm => ?_, rfl⟩
  exact getNode_updateNode_ne (fun x => rfl) hm

/-- Witness for the amended C9 at a concrete input. -/
theorem c9_witness :
    c9state.getNode "N" = some (testNode "N" 0 0 Status.online 100 100 []) ∧
    (c9state.updateNodeStatus "N" Status.offline 5).getNode "N" =
      some { testNode "N" 0 0 Status.online 100 100 [] with
             status := Status.offline, lastSeen := 5 } :=
  ⟨by decide,
   (c9_update_status_amended c9state "N" Status.offline 5
     (testNode "N" 0 0 Status.online 100 100 []) (by decide)).1⟩

/-! ## Ant-colony lemmas -/

/-- The route an ant reports when source equals destination. -/
def acoSelfRoute (s : String) : Route :=
  { source := s, destination := s, path := [s], cost := .fin 0,
    latency := JsRat.ofNat 1 * 15, reliability := 9/10 }

theorem antTraverse_self (sqrtQ : JsRat → JsRat) (rand : ℕ → JsRat) (ph : Pheromones)
    (nodes : List Node) (s : String) (priority : Priority) (k : ℕ) :
    AntColonyRouter.antTraverse sqrtQ rand ph nodes s s priority k =
      (some (acoSelfRoute s), k) := by
  unfold AntColonyRouter.antTraverse AntColonyRouter.antLoop
  simp [acoSelfRoute]

/-- Establish an invariant with the first fold step, then preserve it. -/
theorem foldl_establish {α β : Type} {P Q : β → Prop} {f : β → α → β}
    (hPQ : ∀ b a, P b → Q (f b a)) (hQ : ∀ b a, Q b → Q (f b a)) :
    ∀ (l : List α) (b : β), l ≠ [] → P b → Q (List.foldl f b l)
  | [], _, h, _ => absurd rfl h
  | x :: xs, b, _, hb => foldl_preserve hQ xs (f b x) (hPQ b x hb)

theorem antStep_best_self (sqrtQ : JsRat → JsRat) (rand : ℕ → JsRat) (nodes : List Node)
    (s : String) (priority : Priority) (ph : Pheromones)
    (st : List Route × (Option Route × JsNum) × ℕ) (a : ℕ)
    (h : st.2.1 = (some (acoSelfRoute s), JsNum.fin 0)) :
    (AntColonyRouter.antStep sqrtQ rand nodes s s priority ph st a).2.1 =
      (some (acoSelfRoute s), JsNum.fin 0) := by
  unfold AntColonyRouter.antStep
  rw [antTraverse_self]
  simp [h, acoSelfRoute]

theorem antStep_best_init (sqrtQ : JsRat → JsRat) (rand : ℕ → JsRat) (nodes : List Node)
    (s : String) (priority : Priority) (ph : Pheromones)
    (st : List Route × (Option Route × JsNum) × ℕ) (a : ℕ)
    (h : st.2.1 = (none, JsNum.inf)) :
    (AntColonyRouter.antStep sqrtQ rand nodes s s priority ph st a).2.1 =
      (some (acoSelfRoute s), JsNum.fin 0) := by
  unfold AntColonyRouter.antStep
  rw [antTraverse_self]
  simp [h, acoSelfRoute]
  rw [if_pos (by decide : JsNum.fin (0 : JsRat) < JsNum.inf)]

theorem acoIteration_best_self (sqrtQ : JsRat → JsRat) (rand : ℕ → JsRat) (nodes : List Node)
    (s : String) (priority : Priority) (st : (Option Route × JsNum) × Pheromones × ℕ) (i : ℕ)
    (h : st.1 = (none, JsNum.inf) ∨ st.1 = (some (acoSelfRoute s), JsNum.fin 0)) :
    (AntColonyRouter.acoIteration sqrtQ rand nodes s s priority st i).1 =
      (some (acoSelfRoute s), JsNum.fin 0) := by
  unfold AntColonyRouter.acoIteration
  show ((List.range ROUTING_CONFIG.ANT_COUNT).foldl
    (AntColonyRouter.antStep sqrtQ rand nodes s s priority st.2.1) ([], st.1, st.2.2)).2.1 = _
  rcases h with h | h
  · exact foldl_establish
      (P := fun b => b.2.1 = ((none : Option Route), JsNum.inf))
      (Q := fun b => b.2.1 = (some (acoSelfRoute s), JsNum.fin 0))
      (fun b a hb => antStep_best_init sqrtQ rand nodes s priority st.2.1 b a hb)
      (fun b a hb => antStep_best_self sqrtQ rand nodes s priority st.2.1 b a hb)
      (List.range ROUTING_CONFIG.ANT_COUNT) ([], st.1, st.2.2) (by decide) h
  · exact foldl_preserve
      (P := fun b => b.2.1 = (some (acoSelfRoute s), JsNum.fin 0))
      (fun b a hb => antStep_best_self sqrtQ rand nodes s priority st.2.1 b a hb)
      (List.range ROUTING_CONFIG.ANT_COUNT) ([], st.1, st.2.2) h

theorem findOptimalPath_self (sqrtQ : JsRat → JsRat) (rand : ℕ → JsRat) (ph : Pheromones)
    (nodes : List Node) (s : String) (priority : Priority) :
    (AntColonyRouter.findOptimalPath sqrtQ rand ph nodes s s priority).1 =
      some (acoSelfRoute s) := by
  unfold AntColonyRouter.findOptimalPath
  have h := foldl_establish
    (P := fun (st : (Option Route × JsNum) × Pheromones × ℕ) =>
      st.1 = ((none : Option Route), JsNum.inf))
    (Q := fun (st : (Option Route × JsNum) × Pheromones × ℕ) =>
      st.1 = (some (acoSelfRoute s), JsNum.fin 0))
    (fun b a hb => acoIteration_best_self sqrtQ rand nodes s priority b a (Or.inl hb))
    (fun b a hb => acoIteration_best_self sqrtQ rand nodes s priority b a (Or.inr hb))
    (List.range ROUTING_CONFIG.ACO_ITERATIONS)
    ((((none : Option Route), JsNum.inf)),
      AntColonyRouter.initializePheromones ph nodes, 0) (by decide) rfl
  show ((List.range ROUTING_CONFIG.ACO_ITERATIONS).foldl
    (AntColonyRouter.acoIteration sqrtQ rand nodes s s priority)
    ((((none : Option Route), JsNum.inf)),
      AntColonyRouter.initializePheromones ph nodes, 0)).1.1 = some (acoSelfRoute s)
  rw [h]

/-- C10 (confirmed): when source equals destination, neither strategy reports
no-path: `findShortestPath` returns the single-node path `[source]` with cost
`Infinity`, and `findOptimalPath` returns the single-node path `[source]` with
cost 0. -/
theorem c10_self_route (sqrtQ : JsRat → JsRat) (rand : ℕ → JsRat) (ph : Pheromones)
    (nodes : List Node) (s : String) (priority : Priority) :
    (∃ r, DijkstraRouter.findShortestPath sqrtQ nodes s s = some r ∧
      r.path = [s] ∧ r.cost = JsNum.inf) ∧
    (∃ r, (AntColonyRouter.findOptimalPath sqrtQ rand ph nodes s s priority).1 = some r ∧
      r.path = [s] ∧ r.cost = JsNum.fin 0) := by
  constructor
  · rw [findShortestPath_eval]
    rw [if_pos rfl]
    exact ⟨_, rfl, rfl, rfl⟩
  · exact ⟨acoSelfRoute s, findOptimalPath_self sqrtQ rand ph nodes s priority, rfl, rfl⟩

/-! ## Unknown-id behaviour (C7) -/

theorem foldl_append_pairs {β : Type} {f : List (String × β) → String → List (String × β)}
    (hf : ∀ acc x, f acc x = acc ∨ ∃ v, f acc x = acc ++ [(x, v)]) :
    ∀ (l : List String) (acc : List (String × β)) (p : String × β),
      p ∈ l.foldl f acc → p ∈ acc ∨ p.1 ∈ l := by
  intro l
  induction l with
  | nil => intro acc p hp; exact Or.inl hp
  | cons x xs ih =>
    intro acc p hp
    rcases ih (f acc x) p hp with h | h
    · rcases hf acc x with he | ⟨v, he⟩
      · rw [he] at h; exact Or.inl h
      · rw [he] at h
        rcases List.mem_append.1 h with h | h
        · exact Or.inl h
        · rw [List.mem_singleton] at h
          subst h
          exact Or.inr (List.mem_cons_self _ _)
    · exact Or.inr (List.mem_cons_of_mem _ h)

theorem antProbabilities_fst_mem {sqrtQ : JsRat → JsRat} {ph : Pheromones} {current : Node}
    {neighbors : List String} {nodes : List Node} {destination : String} {p : String × JsNum}
    (hp : p ∈ AntColonyRouter.antProbabilities sqrtQ ph current neighbors nodes destination) :
    p.1 ∈ neighbors := by
  unfold AntColonyRouter.antProbabilities at hp
  have := foldl_append_pairs (f := fun acc neighborId =>
      match nodes.find? (fun n => n.id == neighborId) with
      | none => acc
      | some neighbor =>
        acc ++ [(neighborId,
          JsNum.mul ((jsOr1 (mapGet ph
              (AntColonyRouter.getEdgeKey current.id neighborId))) ^ ROUTING_CONFIG.ALPHA)
            ((JsNum.fin (match nodes.find? (fun n => n.id == destination) with
              | some destNode =>
                1 / (1 + sqrtQ ((destNode.x - neighbor.x) ^ 2 + (destNode.y - neighbor.y) ^ 2))
              | none => 1)) ^ ROUTING_CONFIG.BETA))])
    (fun acc x => ?_) neighbors [] p hp
  · rcases this with h | h
    · simp at h
    · exact h
  · cases hx : nodes.find? (fun n => n.id == x) with
    | none => exact Or.inl (by simp [hx])
    | some nb =>
      exact Or.inr ⟨(jsOr1 (mapGet ph (AntColonyRouter.getEdgeKey current.id x)) ^
          ROUTING_CONFIG.ALPHA).mul
          ((JsNum.fin (match nodes.find? (fun n => n.id == destination) with
            | some destNode =>
              1 / (1 + sqrtQ ((destNode.x - nb.x) ^ 2 + (destNode.y - nb.y) ^ 2))
            | none => 1)) ^ ROUTING_CONFIG.BETA), by simp only [hx]⟩

theorem rouletteLoop_mem : ∀ (r : JsNum) (l : List (String × JsNum)) {id : String},
    AntColonyRouter.rouletteLoop r l = some id → ∃ p ∈ l, p.1 = id := by
  intro r l
  induction l generalizing r with
  | nil => intro id h; simp [AntColonyRouter.rouletteLoop] at h
  | cons p rest ih =>
    intro id h
    unfold AntColonyRouter.rouletteLoop at h
    by_cases hc : jsSub r p.2 ≤ JsNum.fin 0
    · rw [if_pos hc] at h
      cases h
      exact ⟨p, List.mem_cons_self _ _, rfl⟩
    · rw [if_neg hc] at h
      obtain ⟨q, hq, hq1⟩ := ih _ h
      exact ⟨q, List.mem_cons_of_mem _ hq, hq1⟩

theorem getLast?_mem {α : Type} : ∀ {l : List α} {a : α}, l.getLast? = some a → a ∈ l := by
  intro l
  induction l with
  | nil => intro a h; simp [List.getLast?] at h
  | cons x xs ih =>
    intro a h
    cases xs with
    | nil =>
      simp [List.getLast?] at h
      subst h
      exact List.mem_singleton_self x
    | cons y ys =>
      rw [List.getLast?_cons_cons] at h
      exact List.mem_cons_of_mem _ (ih h)

theorem selectNextNode_mem {sqrtQ : JsRat → JsRat} {rand : ℕ → JsRat} {ph : Pheromones}
    {current : Node} {neighbors : List String} {nodes : List Node} {destination : String}
    {k : ℕ} {id : String} {k' : ℕ}
    (h : AntColonyRouter.selectNextNode sqrtQ rand ph current neighbors nodes destination k =
      (some id, k')) : id ∈ neighbors := by
  unfold AntColonyRouter.selectNextNode at h
  by_cases ht : (AntColonyRouter.antProbabilities sqrtQ ph current neighbors nodes
      destination).foldl (fun t p => JsNum.add t p.2) (JsNum.fin 0) = JsNum.fin 0
  · rw [if_pos ht] at h
    injection h with h1 h2
    cases neighbors with
    | nil => simp at h1
    | cons y ys =>
      rw [List.head?_cons] at h1
      cases h1
      exact List.mem_cons_self _ _
  · rw [if_neg ht] at h
    have h' : (match AntColonyRouter.rouletteLoop
        (JsNum.mul (JsNum.fin (rand k))
          ((AntColonyRouter.antProbabilities sqrtQ ph current neighbors nodes
            destination).foldl (fun t p => JsNum.add t p.2) (JsNum.fin 0)))
        (AntColonyRouter.antProbabilities sqrtQ ph current neighbors nodes destination) with
      | some id0 => ((some id0 : Option String), k + 1)
      | none => (jsIdOrNull (((AntColonyRouter.antProbabilities sqrtQ ph current neighbors
          nodes destination).getLast?).map Prod.fst), k + 1)) = (some id, k') := h
    cases hr : AntColonyRouter.rouletteLoop
        (JsNum.mul (JsNum.fin (rand k))
          ((AntColonyRouter.antProbabilities sqrtQ ph current neighbors nodes
            destination).foldl (fun t p => JsNum.add t p.2) (JsNum.fin 0)))
        (AntColonyRouter.antProbabilities sqrtQ ph current neighbors nodes destination) with
    | some id0 =>
      rw [hr] at h'
      injection h' with h1 h2
      cases h1
      obtain ⟨p, hp, hp1⟩ := rouletteLoop_mem _ _ hr
      exact hp1 ▸ antProbabilities_fst_mem hp
    | none =>
      rw [hr] at h'
      injection h' with h1 h2
      cases hg : (AntColonyRouter.antProbabilities sqrtQ ph current neighbors nodes
          destination).getLast? with
      | none => rw [hg] at h1; simp [jsIdOrNull] at h1
      | some p0 =>
        rw [hg] at h1
        simp only [Option.map_some'] at h1
        by_cases he : p0.1 = ""
        · rw [jsIdOrNull, if_pos he] at h1; cases h1
        · rw [jsIdOrNull, if_neg he] at h1
          cases h1
          exact antProbabilities_fst_mem (getLast?_mem hg)

theorem antNeighbors_found {nodes : List Node} {visited : List String} {currentNode : Node}
    {x : String} (h : x ∈ AntColonyRouter.antNeighbors nodes visited currentNode) :
    ∃ node, nodes.find? (fun n => n.id == x) = some node := by
  unfold AntColonyRouter.antNeighbors at h
  have hpred := List.of_mem_filter h
  cases hf : nodes.find? (fun n => n.id == x) with
  | none => rw [hf] at hpred; simp at hpred
  | some node => exact ⟨node, rfl⟩

theorem antLoop_currentId_ne (sqrtQ : JsRat → JsRat) (rand : ℕ → JsRat) (ph : Pheromones)
    (nodes : List Node) (dst : String) (priority : Priority)
    (hdst : nodes.find? (fun n => n.id == dst) = none) :
    ∀ (fuel : ℕ) (st : AntState), st.currentId ≠ dst →
      (AntColonyRouter.antLoop sqrtQ rand ph nodes dst priority fuel st).currentId ≠ dst := by
  intro fuel
  induction fuel with
  | zero => intro st h; exact h
  | succ f ih =>
    intro st h
    unfold AntColonyRouter.antLoop
    rw [if_neg h]
    cases hcur : nodes.find? (fun n => n.id == st.currentId) with
    | none => exact h
    | some currentNode =>
      by_cases hemp : (AntColonyRouter.antNeighbors nodes st.visited currentNode).isEmpty
      · simp only [hemp, if_true]
        exact h
      · simp only [hemp, Bool.false_eq_true, if_false]
        cases hsel : AntColonyRouter.selectNextNode sqrtQ rand ph currentNode
            (AntColonyRouter.antNeighbors nodes st.visited currentNode) nodes dst
            st.randIdx with
        | mk o k' =>
          cases o with
          | none => exact h
          | some nextId =>
            have hmem := selectNextNode_mem hsel
            have hnext_ne : nextId ≠ dst := by
              intro hc
              subst hc
              obtain ⟨node, hnode⟩ := antNeighbors_found hmem
              rw [hnode] at hdst
              cases hdst
            change (match nodes.find? (fun n => n.id == nextId) with
              | none => { path := st.path, visited := st.visited, currentId := st.currentId,
                          totalCost := st.totalCost, randIdx := k' }
              | some nextNode =>
                AntColonyRouter.antLoop sqrtQ rand ph nodes dst priority f
                  { path := st.path ++ [nextId], visited := st.visited ++ [nextId],
                    currentId := nextId,
                    totalCost := st.totalCost + sqrtQ ((nextNode.x - currentNode.x) ^ 2 +
                      (nextNode.y - currentNode.y) ^ 2) *
                      (if priority = Priority.critical then 1/2
                       else if priority = Priority.high then 3/4 else 1),
                    randIdx := k' } : AntState).currentId ≠ dst
            cases hnf : nodes.find? (fun n => n.id == nextId) with
            | none => exact h
            | some nextNode => exact ih _ hnext_ne

/-- On an unknown source or an unknown destination (source distinct from
destination), every ant traversal fails. -/
theorem antTraverse_fst_none (sqrtQ : JsRat → JsRat) (rand : ℕ → JsRat) (ph : Pheromones)
    (nodes : List Node) (src dst : String) (priority : Priority) (k : ℕ)
    (hne : src ≠ dst)
    (h : nodes.find? (fun n => n.id == src) = none ∨
         nodes.find? (fun n => n.id == dst) = none) :
    (AntColonyRouter.antTraverse sqrtQ rand ph nodes src dst priority k).1 = none := by
  have hcur : (AntColonyRouter.antLoop sqrtQ rand ph nodes dst priority (nodes.length + 1)
      { path := [src], visited := [src], currentId := src, totalCost := 0,
        randIdx := k }).currentId ≠ dst := by
    rcases h with h | h
    · simp only [AntColonyRouter.antLoop, h]
      intro hc
      split at hc
      · exact hne hc
      · exact hne hc
    · exact antLoop_currentId_ne sqrtQ rand ph nodes dst priority h _ _ hne
  simp only [AntColonyRouter.antTraverse]
  rw [if_pos hcur]

theorem antStep_none (sqrtQ : JsRat → JsRat) (rand : ℕ → JsRat) (nodes : List Node)
    (src dst : String) (priority : Priority) (ph : Pheromones)
    (st : List Route × (Option Route × JsNum) × ℕ) (a : ℕ)
    (hne : src ≠ dst)
    (h : nodes.find? (fun n => n.id == src) = none ∨
         nodes.find? (fun n => n.id == dst) = none) :
    (AntColonyRouter.antStep sqrtQ rand nodes src dst priority ph st a).2.1 = st.2.1 := by
  simp only [AntColonyRouter.antStep]
  rw [antTraverse_fst_none sqrtQ rand ph nodes src dst priority st.2.2 hne h]

theorem acoIteration_none (sqrtQ : JsRat → JsRat) (rand : ℕ → JsRat) (nodes : List Node)
    (src dst : String) (priority : Priority)
    (st : (Option Route × JsNum) × Pheromones × ℕ) (i : ℕ)
    (hne : src ≠ dst)
    (h : nodes.find? (fun n => n.id == src) = none ∨
         nodes.find? (fun n => n.id == dst) = none)
    (hst : st.1 = (none, JsNum.inf)) :
    (AntColonyRouter.acoIteration sqrtQ rand nodes src dst priority st i).1 =
      (none, JsNum.inf) := by
  unfold AntColonyRouter.acoIteration
  show ((List.range ROUTING_CONFIG.ANT_COUNT).foldl
    (AntColonyRouter.antStep sqrtQ rand nodes src dst priority st.2.1) ([], st.1, st.2.2)).2.1 = _
  refine foldl_preserve
    (P := fun (b : List Route × (Option Route × JsNum) × ℕ) => b.2.1 = (none, JsNum.inf))
    (fun b a hb => ?_) (List.range ROUTING_CONFIG.ANT_COUNT) ([], st.1, st.2.2) hst
  show (AntColonyRouter.antStep sqrtQ rand nodes src dst priority st.2.1 b a).2.1 =
    (none, JsNum.inf)
  rw [antStep_none sqrtQ rand nodes src dst priority st.2.1 b a hne h]
  exact hb

/-- With an unknown source or destination (and source distinct from
destination) the stochastic strategy returns no route. -/
theorem findOptimalPath_fst_none (sqrtQ : JsRat → JsRat) (rand : ℕ → JsRat) (ph : Pheromones)
    (nodes : List Node) (src dst : String) (priority : Priority)
    (hne : src ≠ dst)
    (h : nodes.find? (fun n => n.id == src) = none ∨
         nodes.find? (fun n => n.id == dst) = none) :
    (AntColonyRouter.findOptimalPath sqrtQ rand ph nodes src dst priority).1 = none := by
  unfold AntColonyRouter.findOptimalPath
  have hfold := foldl_preserve
    (P := fun (st : (Option Route × JsNum) × Pheromones × ℕ) => st.1 = (none, JsNum.inf))
    (fun b a hb => acoIteration_none sqrtQ rand nodes src dst priority b a hne h hb)
    (List.range ROUTING_CONFIG.ACO_ITERATIONS)
    ((((none : Option Route), JsNum.inf)),
      AntColonyRouter.initializePheromones ph nodes, 0) rfl
  show ((List.range ROUTING_CONFIG.ACO_ITERATIONS).foldl
    (AntColonyRouter.acoIteration sqrtQ rand nodes src dst priority)
    ((((none : Option Route), JsNum.inf)),
      AntColonyRouter.initializePheromones ph nodes, 0)).1.1 = none
  rw [hfold]

theorem map_self {α : Type} (l : List α) (f : α → α) (h : ∀ a ∈ l, f a = a) : l.map f = l := by
  induction l with
  | nil => rfl
  | cons x xs ih =>
    simp only [List.map_cons]
    rw [h x (List.mem_cons_self _ _), ih (fun a ha => h a (List.mem_cons_of_mem _ ha))]

/-- A no-match map never changes under `updateNode`. -/
theorem updateNode_of_unknown {s : MeshNetwork} {nodeId : String} (f : Node → Node)
    (h : s.getNode nodeId = none) : s.updateNode nodeId f = s := by
  have h' : s.nodes.find? (fun n => n.id == nodeId) = none := h
  have hall := List.find?_eq_none.1 h'
  unfold MeshNetwork.updateNode
  cases s with
  | mk ns cs =>
    simp only [MeshNetwork.mk.injEq, and_true]
    exact map_self ns _ (fun n hn => if_neg (by simpa using hall n hn))

/-- C7 counterexample: with source = destination = an id absent from the
topology, both strategies return a route (not the no-path result), so routing
calls with an unknown source or destination id do not always report
unreachable. -/
theorem c7_counterexample :
    DijkstraRouter.findShortestPath ratSqrt [] "u" "u" ≠ none ∧
    (AntColonyRouter.findOptimalPath ratSqrt (fun _ => 0) [] [] "u" "u" Priority.high).1 ≠
      none := by
  constructor
  · decide
  · rw [findOptimalPath_self]
    decide

/-- C7 (amended): operations referencing an id absent from the topology are
no-ops for the mutating calls (`updateNodeStatus`, `removeNode`); routing calls
(either strategy directly, or through the facade) whose source or destination
id is unknown return the no-path result provided source and destination are
distinct. -/
theorem c7_unknown_id_amended (sqrtQ : JsRat → JsRat) (rand : ℕ → JsRat) (ph : Pheromones)
    (s : MeshNetwork) (id : String) (status : Status) (now : ℕ)
    (nodes : List Node) (src dst : String) (priority : Priority)
    (hid : s.getNode id = none)
    (hsd : src ≠ dst)
    (hunk : nodes.find? (fun n => n.id == src) = none ∨
            nodes.find? (fun n => n.id == dst) = none) :
    s.updateNodeStatus id status now = s ∧
    s.removeNode id = s ∧
    DijkstraRouter.findShortestPath sqrtQ nodes src dst = none ∧
    (AntColonyRouter.findOptimalPath sqrtQ rand ph nodes src dst priority).1 = none ∧
    (Router.findRoute sqrtQ rand ph nodes src dst priority).1 = none := by
  refine ⟨updateNode_of_unknown _ hid, ?_, c2_dijkstra_always_no_route sqrtQ nodes src dst hsd,
    findOptimalPath_fst_none sqrtQ rand ph nodes src dst priority hsd hunk, ?_⟩
  · unfold MeshNetwork.removeNode
    rw [hid]
  · unfold Router.findRoute
    by_cases hp : priority = Priority.critical
    · rw [if_pos hp]
      exact c2_dijkstra_always_no_route sqrtQ nodes src dst hsd
    · rw [if_neg hp]
      exact findOptimalPath_fst_none sqrtQ rand ph nodes src dst priority hsd hunk

/-- Witness for the amended C7 at a concrete input. -/
theorem c7_witness :
    MeshNetwork.empty.updateNodeStatus "u" Status.offline 3 = MeshNetwork.empty ∧
    MeshNetwork.empty.removeNode "u" = MeshNetwork.empty ∧
    DijkstraRouter.findShortestPath ratSqrt c1nodes "u" "v" = none ∧
    (AntColonyRouter.findOptimalPath ratSqrt (fun _ => 0) [] c1nodes "u" "v"
      Priority.high).1 = none ∧
    (Router.findRoute ratSqrt (fun _ => 0) [] c1nodes "u" "v" Priority.high).1 = none := by
  have := c7_unknown_id_amended ratSqrt (fun _ => 0) [] MeshNetwork.empty "u" Status.offline 3
    c1nodes "u" "v" Priority.high (by decide) (by decide) (Or.inl (by decide))
  exact this

/-! ## Reliability of the route candidates (C8) -/

/-- Every route an ant traversal reports carries the stand-in reliability
`0.9`. -/
theorem antTraverse_reliability {sqrtQ : JsRat → JsRat} {rand : ℕ → JsRat} {ph : Pheromones}
    {nodes : List Node} {src dst : String} {priority : Priority} {k : ℕ} {r : Route}
    (h : (AntColonyRouter.antTraverse sqrtQ rand ph nodes src dst priority k).1 = some r) :
    r.reliability = 9/10 := by
  simp only [AntColonyRouter.antTraverse] at h
  split at h
  · simp at h
  · simp only [Option.some.injEq] at h
    rw [← h]

theorem antStep_reliability (sqrtQ : JsRat → JsRat) (rand : ℕ → JsRat) (nodes : List Node)
    (src dst : String) (priority : Priority) (ph : Pheromones)
    (st : List Route × (Option Route × JsNum) × ℕ) (a : ℕ)
    (hP : ∀ r, st.2.1.1 = some r → r.reliability = 9/10) :
    ∀ r, (AntColonyRouter.antStep sqrtQ rand nodes src dst priority ph st a).2.1.1 = some r →
      r.reliability = 9/10 := by
  intro r hr
  simp only [AntColonyRouter.antStep] at hr
  cases hro : (AntColonyRouter.antTraverse sqrtQ rand ph nodes src dst priority st.2.2).1 with
  | none =>
    rw [hro] at hr
    exact hP r hr
  | some route =>
    rw [hro] at hr
    have hr' : (if route.cost < st.2.1.2 then
        (st.1 ++ [route], ((some route : Option Route), route.cost),
          (AntColonyRouter.antTraverse sqrtQ rand ph nodes src dst priority st.2.2).2)
      else (st.1 ++ [route], st.2.1,
          (AntColonyRouter.antTraverse sqrtQ rand ph nodes src dst priority
            st.2.2).2)).2.1.1 = some r := hr
    by_cases hlt : route.cost < st.2.1.2
    · rw [if_pos hlt] at hr'
      simp only [Option.some.injEq] at hr'
      rw [← hr']
      exact antTraverse_reliability hro
    · rw [if_neg hlt] at hr'
      exact hP r hr'

theorem acoIteration_reliability (sqrtQ : JsRat → JsRat) (rand : ℕ → JsRat) (nodes : List Node)
    (src dst : String) (priority : Priority)
    (st : (Option Route × JsNum) × Pheromones × ℕ) (i : ℕ)
    (hP : ∀ r, st.1.1 = some r → r.reliability = 9/10) :
    ∀ r, (AntColonyRouter.acoIteration sqrtQ rand nodes src dst priority st i).1.1 = some r →
      r.reliability = 9/10 := by
  intro r hr
  have hr' : ((List.range ROUTING_CONFIG.ANT_COUNT).foldl
      (AntColonyRouter.antStep sqrtQ rand nodes src dst priority st.2.1)
      ([], st.1, st.2.2)).2.1.1 = some r := hr
  exact foldl_preserve
    (P := fun (b : List Route × (Option Route × JsNum) × ℕ) =>
      ∀ r, b.2.1.1 = some r → r.reliability = 9/10)
    (fun b a hb => antStep_reliability sqrtQ rand nodes src dst priority st.2.1 b a hb)
    (List.range ROUTING_CONFIG.ANT_COUNT) ([], st.1, st.2.2) hP r hr'

/-- Every route the stochastic strategy returns carries the stand-in
reliability `0.9`. -/
theorem findOptimalPath_reliability {sqrtQ : JsRat → JsRat} {rand : ℕ → JsRat}
    {ph : Pheromones} {nodes : List Node} {src dst : String} {priority : Priority} {r : Route}
    (h : (AntColonyRouter.findOptimalPath sqrtQ rand ph nodes src dst priority).1 = some r) :
    r.reliability = 9/10 := by
  have h' : ((List.range ROUTING_CONFIG.ACO_ITERATIONS).foldl
      (AntColonyRouter.acoIteration sqrtQ rand nodes src dst priority)
      ((((none : Option Route), JsNum.inf)),
        AntColonyRouter.initializePheromones ph nodes, 0)).1.1 = some r := h
  refine foldl_preserve
    (P := fun (st : (Option Route × JsNum) × Pheromones × ℕ) =>
      ∀ r, st.1.1 = some r → r.reliability = 9/10)
    (fun b a hb => acoIteration_reliability sqrtQ rand nodes src dst priority b a hb)
    (List.range ROUTING_CONFIG.ACO_ITERATIONS) _ ?_ r h'
  intro r hr
  simp at hr

/-- The single node of the C8 counterexample: online, battery 50, signal 100. -/
def c8node : Node := testNode "s" 0 0 Status.online 50 100 []

/-- The route the deterministic strategy actually computes on `[c8node]` with
source = destination = `"s"`; its computed reliability is `(100/100)·(50/100)
= 1/2`. -/
def c8route : Route :=
  { source := "s", destination := "s", path := ["s"], cost := JsNum.inf, latency := 0,
    reliability := 1/2 }

/-- C8 counterexample: in `findAllRoutes`, the deterministic candidate (the
head of the returned list, with path `["s"]`) carries the stand-in
reliability `0.95` instead of the reliability the deterministic strategy
computed (`0.5`), contradicting the claim that the stand-in is applied to the
stochastic candidate only. -/
theorem c8_counterexample :
    ((Router.findAllRoutes ratSqrt (fun _ => 0) [] [c8node] "s" "s").1.head?).map
      Route.reliability = some (95/100) ∧
    ((Router.findAllRoutes ratSqrt (fun _ => 0) [] [c8node] "s" "s").1.head?).map
      Route.path = some ["s"] ∧
    DijkstraRouter.calculateReliability ["s"] [c8node] = 1/2 ∧
    (95/100 : JsRat) ≠ 1/2 := by
  refine ⟨by decide, by decide, by decide, by decide⟩

/-- C8 (amended): `findAllRoutes` runs the deterministic strategy once and the
stochastic strategy once at critical priority and returns every candidate
found; the deterministic candidate is returned with its reliability
overwritten by the stand-in `0.95`, and the stochastic candidate carries the
ant-traversal stand-in `0.9` — every returned candidate has one of these two
stand-in reliabilities, and none carries the deterministic strategy's computed
reliability. -/
theorem c8_reliability_amended (sqrtQ : JsRat → JsRat) (rand : ℕ → JsRat) (ph : Pheromones)
    (nodes : List Node) (source destination : String) (r0 : Route)
    (h : DijkstraRouter.findShortestPath sqrtQ nodes source destination = some r0) :
    (Router.findAllRoutes sqrtQ rand ph nodes source destination).1.head? =
      some { r0 with reliability := 95/100 } ∧
    ∀ r ∈ (Router.findAllRoutes sqrtQ rand ph nodes source destination).1,
      r.reliability = 95/100 ∨ r.reliability = 9/10 := by
  constructor
  · simp only [Router.findAllRoutes, h]
    rfl
  · intro r hr
    simp only [Router.findAllRoutes, h] at hr
    rcases List.mem_append.1 hr with hmem | hmem
    · rw [List.mem_singleton] at hmem
      subst hmem
      left
      rfl
    · right
      cases haco : (AntColonyRouter.findOptimalPath sqrtQ rand ph nodes source destination
          Priority.critical).1 with
      | none =>
        rw [haco] at hmem
        simp at hmem
      | some ro =>
        rw [haco] at hmem
        have hmem' : r ∈ [ro] := hmem
        rw [List.mem_singleton] at hmem'
        subst hmem'
        exact findOptimalPath_reliability haco

/-- Witness for the amended C8 at a concrete input. -/
theorem c8_witness :
    DijkstraRouter.findShortestPath ratSqrt [c8node] "s" "s" = some c8route ∧
    (Router.findAllRoutes ratSqrt (fun _ => 0) [] [c8node] "s" "s").1.head? =
      some { c8route with reliability := 95/100 } :=
  ⟨by decide,
   (c8_reliability_amended ratSqrt (fun _ => 0) [] [c8node] "s" "s" c8route (by decide)).1⟩

/-! ## Pheromone map lifecycle (C6) -/

theorem mapGet_mapSet_ne {α : Type} {m : List (String × α)} {k k' : String} (v : α)
    (h : k' ≠ k) : mapGet (mapSet m k v) k' = mapGet m k' := by
  induction m with
  | nil => simp [mapSet, mapGet, Ne.symm h]
  | cons p rest ih =>
    by_cases hp : p.1 = k
    · simp [mapSet, mapGet, hp, Ne.symm h]
    · simp only [mapSet, if_neg hp, mapGet]
      by_cases hp' : p.1 = k'
      · rw [if_pos hp', if_pos hp']
      · rw [if_neg hp', if_neg hp']
        exact ih

theorem mapGet_isSome_mapSet {α : Type} {m : List (String × α)} {K : String} (k : String)
    (v : α) (h : (mapGet m K).isSome) : (mapGet (mapSet m k v) K).isSome := by
  by_cases hk : K = k
  · subst hk
    rw [mapGet_mapSet_self]
    rfl
  · rw [mapGet_mapSet_ne v hk]
    exact h

theorem mapSet_keeps_same {α : Type} {m : List (String × α)} {K : String} {v0 : α} (k : String)
    (h : mapGet m K = some v0) : mapGet (mapSet m k v0) K = some v0 := by
  by_cases hk : K = k
  · subst hk
    exact mapGet_mapSet_self m _ v0
  · rw [mapGet_mapSet_ne v0 hk]
    exact h

theorem mapGet_evaporate (ph : Pheromones) (K : String) :
    mapGet (AntColonyRouter.evaporatePheromones ph) K =
      (mapGet ph K).map
        (fun v => JsNum.mul v (.fin (1 - ROUTING_CONFIG.PHEROMONE_EVAPORATION))) := by
  induction ph with
  | nil => rfl
  | cons p rest ih =>
    by_cases hp : p.1 = K
    · simp [AntColonyRouter.evaporatePheromones, mapGet, hp]
    · simp only [AntColonyRouter.evaporatePheromones, List.map_cons, mapGet, if_neg hp]
      exact ih

theorem depositPheromones_isSome (ph : Pheromones) (route : Route) (priority : Priority)
    (K : String) (h : (mapGet ph K).isSome) :
    (mapGet (AntColonyRouter.depositPheromones ph route priority) K).isSome := by
  unfold AntColonyRouter.depositPheromones
  refine foldl_preserve (P := fun (m : List (String × JsNum)) => (mapGet m K).isSome)
    (fun b i hb => ?_) _ _ h
  exact mapGet_isSome_mapSet _ _ hb

/-- The shared core of C6: `initializePheromones` maps every edge of the
supplied topology to the uniform initial constant, whatever the previous
pheromone state was. -/
theorem initInner_edge (aId bId : String) :
    ∀ (conns : List String), bId ∈ conns → ∀ m : Pheromones,
      mapGet (conns.foldl (fun m' b => mapSet m' (AntColonyRouter.getEdgeKey aId b)
          ROUTING_CONFIG.PHEROMONE_INITIAL) m) (AntColonyRouter.getEdgeKey aId bId) =
        some ROUTING_CONFIG.PHEROMONE_INITIAL := by
  intro conns
  induction conns with
  | nil => intro hb; cases hb
  | cons c cs ih =>
    intro hb m
    simp only [List.foldl_cons]
    rcases List.mem_cons.1 hb with hb' | hb'
    · subst hb'
      refine foldl_preserve
        (P := fun m' => mapGet m' (AntColonyRouter.getEdgeKey aId bId) =
          some ROUTING_CONFIG.PHEROMONE_INITIAL)
        (fun b a hbp => mapSet_keeps_same _ hbp) cs _ (mapGet_mapSet_self _ _ _)
    · exact ih hb' _

theorem initializePheromones_edge (ph : Pheromones) (nodes : List Node) (a : Node)
    (bId : String) (ha : a ∈ nodes) (hb : bId ∈ a.connections) :
    mapGet (AntColonyRouter.initializePheromones ph nodes)
      (AntColonyRouter.getEdgeKey a.id bId) = some ROUTING_CONFIG.PHEROMONE_INITIAL := by
  unfold AntColonyRouter.initializePheromones
  induction nodes generalizing ph with
  | nil => cases ha
  | cons n ns ih =>
    simp only [List.foldl_cons]
    rcases List.mem_cons.1 ha with ha' | ha'
    · subst ha'
      refine foldl_preserve
        (P := fun m => mapGet m (AntColonyRouter.getEdgeKey a.id bId) =
          some ROUTING_CONFIG.PHEROMONE_INITIAL)
        (fun b nodeA hbp => ?_) ns _ (initInner_edge a.id bId a.connections hb _)
      exact foldl_preserve
        (P := fun m => mapGet m (AntColonyRouter.getEdgeKey a.id bId) =
          some ROUTING_CONFIG.PHEROMONE_INITIAL)
        (fun b' x hbp' => mapSet_keeps_same _ hbp') nodeA.connections b hbp
    · exact ih _ ha'

theorem initializePheromones_isSome (ph : Pheromones) (nodes : List Node) (K : String)
    (h : (mapGet ph K).isSome) :
    (mapGet (AntColonyRouter.initializePheromones ph nodes) K).isSome := by
  unfold AntColonyRouter.initializePheromones
  refine foldl_preserve (P := fun (m : Pheromones) => (mapGet m K).isSome)
    (fun b a hb => ?_) _ _ h
  exact foldl_preserve (P := fun (m : Pheromones) => (mapGet m K).isSome)
    (fun b' a' hb' => mapGet_isSome_mapSet _ _ hb') _ _ hb

theorem acoIteration_ph_isSome (sqrtQ : JsRat → JsRat) (rand : ℕ → JsRat) (nodes : List Node)
    (src dst : String) (priority : Priority)
    (st : (Option Route × JsNum) × Pheromones × ℕ) (i : ℕ) (K : String)
    (h : (mapGet st.2.1 K).isSome) :
    (mapGet (AntColonyRouter.acoIteration sqrtQ rand nodes src dst priority st i).2.1
      K).isSome := by
  show (mapGet ((((List.range ROUTING_CONFIG.ANT_COUNT).foldl
      (AntColonyRouter.antStep sqrtQ rand nodes src dst priority st.2.1)
      ([], st.1, st.2.2)).1).foldl
      (fun m route => AntColonyRouter.depositPheromones m route priority)
      (AntColonyRouter.evaporatePheromones st.2.1)) K).isSome
  refine foldl_preserve (P := fun (m : Pheromones) => (mapGet m K).isSome)
    (fun b r hb => depositPheromones_isSome b r priority K hb) _ _ ?_
  show (mapGet (AntColonyRouter.evaporatePheromones st.2.1) K).isSome = true
  rw [mapGet_evaporate]
  obtain ⟨v, hv⟩ := Option.isSome_iff_exists.1 h
  rw [hv]
  rfl

/-- Pheromone keys are never removed: any key present after the
reinitialization at the start of a call is still present in the router's map
when the call returns. -/
theorem findOptimalPath_ph_isSome (sqrtQ : JsRat → JsRat) (rand : ℕ → JsRat) (ph : Pheromones)
    (nodes : List Node) (src dst : String) (priority : Priority) (K : String)
    (h : (mapGet (AntColonyRouter.initializePheromones ph nodes) K).isSome) :
    (mapGet (AntColonyRouter.findOptimalPath sqrtQ rand ph nodes src dst priority).2
      K).isSome := by
  show (mapGet ((List.range ROUTING_CONFIG.ACO_ITERATIONS).foldl
      (AntColonyRouter.acoIteration sqrtQ rand nodes src dst priority)
      ((((none : Option Route), JsNum.inf)),
        AntColonyRouter.initializePheromones ph nodes, 0)).2.1 K).isSome
  exact foldl_preserve
    (P := fun (st : (Option Route × JsNum) × Pheromones × ℕ) => (mapGet st.2.1 K).isSome)
    (fun b a hb => acoIteration_ph_isSome sqrtQ rand nodes src dst priority b a K hb)
    (List.range ROUTING_CONFIG.ACO_ITERATIONS) _ h

/-- The edge keys of a topology snapshot (`a-b` for every adjacency entry). -/
def topologyEdgeKeys (nodes : List Node) : List String :=
  nodes.foldl (fun acc a => acc ++ a.connections.map (AntColonyRouter.getEdgeKey a.id)) []

/-- The two-node topology of the first routing call in the C6 scenario. -/
def c6topology : List Node :=
  [testNode "p" 0 0 Status.online 100 100 ["q"],
   testNode "q" 300 0 Status.online 100 100 ["p"]]

/-- C6 counterexample: run `findOptimalPath` on the two-node topology `p—q`,
then start an independent call on the empty topology (which has no edges at
all): immediately after that call's `initializePheromones`, the map still
contains the stale key `p-q`, so the map does not contain exactly the edges of
the supplied topology. -/
theorem c6_counterexample :
    (mapGet (AntColonyRouter.initializePheromones
      ((AntColonyRouter.findOptimalPath ratSqrt (fun _ => 0) [] c6topology "p" "q"
        Priority.high).2) ([] : List Node)) "p-q").isSome = true ∧
    topologyEdgeKeys ([] : List Node) = [] := by
  refine ⟨?_, rfl⟩
  show (mapGet ((AntColonyRouter.findOptimalPath ratSqrt (fun _ => 0) [] c6topology "p" "q"
    Priority.high).2) "p-q").isSome = true
  have hinit := initializePheromones_edge [] c6topology
    (testNode "p" 0 0 Status.online 100 100 ["q"]) "q" (by decide) (by decide)
  have hkey : AntColonyRouter.getEdgeKey (testNode "p" 0 0 Status.online 100 100 ["q"]).id
      "q" = "p-q" := by decide
  rw [hkey] at hinit
  have := findOptimalPath_ph_isSome ratSqrt (fun _ => 0) [] c6topology "p" "q" Priority.high
    "p-q" (by rw [hinit]; rfl)
  exact this

/-- C6 (amended): at the start of every top-level path-finding call, every edge
present in the supplied topology is (re)set to the uniform initial pheromone
constant, so no learned value persists on current edges; the map is however
never cleared, so keys of edges absent from the supplied topology can persist
from earlier calls on the same router. -/
theorem c6_pheromone_reset_amended (ph : Pheromones) (nodes : List Node) (a : Node)
    (bId : String) (ha : a ∈ nodes) (hb : bId ∈ a.connections) :
    mapGet (AntColonyRouter.initializePheromones ph nodes)
      (AntColonyRouter.getEdgeKey a.id bId) = some ROUTING_CONFIG.PHEROMONE_INITIAL :=
  initializePheromones_edge ph nodes a bId ha hb

/-- Witness for the amended C6 at a concrete input. -/
theorem c6_witness :
    testNode "p" 0 0 Status.online 100 100 ["q"] ∈ c6topology ∧
    "q" ∈ (testNode "p" 0 0 Status.online 100 100 ["q"]).connections ∧
    mapGet (AntColonyRouter.initializePheromones [] c6topology)
      (AntColonyRouter.getEdgeKey (testNode "p" 0 0 Status.online 100 100 ["q"]).id "q") =
      some ROUTING_CONFIG.PHEROMONE_INITIAL :=
  ⟨by decide, by decide,
   c6_pheromone_reset_amended [] c6topology (testNode "p" 0 0 Status.online 100 100 ["q"])
     "q" (by decide) (by decide)⟩

/-! ## Adjacency symmetry under create/establish/remove (C5) -/

/-- One public topology-mutating call, with the environment-generated data
(`CryptoUtils.generateId()`, IP, timestamp) supplied as op payload. -/
inductive TopologyOp where
  | create (name : String) (x y : JsRat) (nodeId ip : String) (now : ℕ)
  | establish (idA idB : String)
  | remove (nodeId : String)

def applyOp (sqrtQ : JsRat → JsRat) (s : MeshNetwork) : TopologyOp → MeshNetwork
  | .create name x y nodeId ip now => s.createNode sqrtQ name x y nodeId ip now
  | .establish idA idB => s.establishConnection sqrtQ idA idB
  | .remove nodeId => s.removeNode nodeId

def applyOps (sqrtQ : JsRat → JsRat) (s : MeshNetwork) (ops : List TopologyOp) : MeshNetwork :=
  ops.foldl (applyOp sqrtQ) s

/-- `CryptoUtils.generateId()` returns ids that never collide; an op list is
admissible when each `create`'s generated id is absent from the state it runs
in. -/
def opFresh (s : MeshNetwork) : TopologyOp → Bool
  | .create _ _ _ nodeId _ _ => s.nodes.all (fun n => n.id != nodeId)
  | _ => true

def freshOps (sqrtQ : JsRat → JsRat) (s : MeshNetwork) : List TopologyOp → Bool
  | [] => true
  | op :: ops => opFresh s op && freshOps sqrtQ (applyOp sqrtQ s op) ops

/-- The symmetry property of the claim, on a node list. -/
def SymNodes (nodes : List Node) : Prop :=
  ∀ a ∈ nodes, ∀ b ∈ nodes, (b.id ∈ a.connections ↔ a.id ∈ b.connections)

/-- Every adjacency entry refers to a present node. -/
def NoDanglingNodes (nodes : List Node) : Prop :=
  ∀ a ∈ nodes, ∀ r ∈ a.connections, r ∈ nodes.map Node.id

/-- The inductive invariant: unique ids, no dangling references, symmetry. -/
def InvNodes (nodes : List Node) : Prop :=
  (nodes.map Node.id).Nodup ∧ NoDanglingNodes nodes ∧ SymNodes nodes

def Inv (s : MeshNetwork) : Prop := InvNodes s.nodes

theorem getNode_mem {s : MeshNetwork} {i : String} {n : Node} (h : s.getNode i = some n) :
    n ∈ s.nodes ∧ n.id = i := by
  have h' : s.nodes.find? (fun m => m.id == i) = some n := h
  refine ⟨List.mem_of_find?_eq_some h', ?_⟩
  have := List.find?_some h'
  simpa using this

/-- The per-node effect of `establishConnection(A, B)` on the node map. -/
def estab (idA idB : String) (n : Node) : Node :=
  { n with connections :=
      n.connections ++ (if n.id = idA then [idB] else []) ++ (if n.id = idB then [idA] else []) }

theorem estab_id (idA idB : String) (n : Node) : (estab idA idB n).id = n.id := rfl

theorem mem_estab (idA idB : String) (n : Node) (r : String) :
    r ∈ (estab idA idB n).connections ↔
      r ∈ n.connections ∨ (n.id = idA ∧ r = idB) ∨ (n.id = idB ∧ r = idA) := by
  by_cases h1 : n.id = idA <;> by_cases h2 : n.id = idB <;>
    simp [estab, h1, h2, List.mem_append]

theorem establish_nodes (sqrtQ : JsRat → JsRat) (s : MeshNetwork) (idA idB : String)
    {A B : Node} (hA : s.getNode idA = some A) (hB : s.getNode idB = some B) :
    (s.establishConnection sqrtQ idA idB).nodes = s.nodes.map (estab idA idB) := by
  unfold MeshNetwork.establishConnection
  rw [hA, hB]
  simp only [MeshNetwork.updateNode]
  rw [List.map_map]
  refine List.map_congr_left (fun n hn => ?_)
  by_cases h1 : n.id = idA <;> by_cases h2 : n.id = idB
  · have h3 : idA = idB := h1 ▸ h2
    simp [Function.comp, estab, h1, h2, h3]
  · have h3 : ¬(idA = idB) := fun e => h2 (h1.trans e)
    simp [Function.comp, estab, h1, h2, h3]
  · have h3 : ¬(idB = idA) := fun e => h1 (h2.trans e)
    simp [Function.comp, estab, h1, h2, h3]
  · simp [Function.comp, estab, h1, h2]

theorem idsOf_map_estab (idA idB : String) (ns : List Node) :
    (ns.map (estab idA idB)).map Node.id = ns.map Node.id := by
  rw [List.map_map]
  exact List.map_congr_left (fun n _ => rfl)

theorem establish_inv (sqrtQ : JsRat → JsRat) (s : MeshNetwork) (idA idB : String)
    (h : Inv s) : Inv (s.establishConnection sqrtQ idA idB) := by
  cases hA : s.getNode idA with
  | none =>
    have hno : s.establishConnection sqrtQ idA idB = s := by
      unfold MeshNetwork.establishConnection
      rw [hA]
    rw [hno]
    exact h
  | some A =>
    cases hB : s.getNode idB with
    | none =>
      have hno : s.establishConnection sqrtQ idA idB = s := by
        unfold MeshNetwork.establishConnection
        rw [hA, hB]
      rw [hno]
      exact h
    | some B =>
      have hnodes := establish_nodes sqrtQ s idA idB hA hB
      obtain ⟨hnd, hdang, hsym⟩ := h
      show InvNodes (s.establishConnection sqrtQ idA idB).nodes
      rw [hnodes]
      refine ⟨?_, ?_, ?_⟩
      · rw [idsOf_map_estab]
        exact hnd
      · intro a ha r hr
        rw [idsOf_map_estab]
        obtain ⟨a0, ha0, rfl⟩ := List.mem_map.1 ha
        rw [mem_estab] at hr
        rcases hr with hr | ⟨-, rfl⟩ | ⟨-, rfl⟩
        · exact hdang a0 ha0 r hr
        · rcases getNode_mem hB with ⟨hBmem, hBid⟩
          exact List.mem_map.2 ⟨B, hBmem, hBid⟩
        · rcases getNode_mem hA with ⟨hAmem, hAid⟩
          exact List.mem_map.2 ⟨A, hAmem, hAid⟩
      · intro a ha b hb
        obtain ⟨a0, ha0, rfl⟩ := List.mem_map.1 ha
        obtain ⟨b0, hb0, rfl⟩ := List.mem_map.1 hb
        rw [estab_id, estab_id, mem_estab, mem_estab]
        have hiff := hsym a0 ha0 b0 hb0
        tauto

/-- The scrub `removeNode` applies to each neighbor of the removed node. -/
def scrubConn (nodeId : String) (n : Node) : Node :=
  { n with connections := n.connections.filter (fun id => id != nodeId) }

theorem scrubIf_id (nodeId : String) (conns : List String) (n : Node) :
    (if n.id ∈ conns then scrubConn nodeId n else n).id = n.id := by
  by_cases hm : n.id ∈ conns <;> simp [hm, scrubConn]

theorem mem_scrubIf (nodeId : String) (conns : List String) (n : Node) (r : String) :
    r ∈ (if n.id ∈ conns then scrubConn nodeId n else n).connections ↔
      r ∈ n.connections ∧ (n.id ∈ conns → r ≠ nodeId) := by
  by_cases hm : n.id ∈ conns <;> simp [hm, scrubConn, List.mem_filter]

theorem scrubFold_nodes (nodeId : String) (conns : List String) :
    ∀ s : MeshNetwork,
      (conns.foldl (fun s' connId => s'.updateNode connId
          (fun n => { n with connections := n.connections.filter (fun id => id != nodeId) }))
        s).nodes =
        s.nodes.map (fun n => if n.id ∈ conns then scrubConn nodeId n else n) := by
  induction conns with
  | nil =>
    intro s
    simp
  | cons c cs ih =>
    intro s
    rw [List.foldl_cons, ih]
    simp only [MeshNetwork.updateNode]
    rw [List.map_map]
    refine List.map_congr_left (fun n hn => ?_)
    by_cases h1 : n.id = c <;> by_cases h2 : n.id ∈ cs <;>
      simp [Function.comp, h1, h2, scrubConn, List.mem_cons, List.filter_filter, Bool.and_self]

theorem remove_nodes (s : MeshNetwork) (nodeId : String) {X : Node}
    (hX : s.getNode nodeId = some X) :
    (s.removeNode nodeId).nodes =
      (s.nodes.map (fun n => if n.id ∈ X.connections then scrubConn nodeId n else n)).filter
        (fun n => n.id != nodeId) := by
  unfold MeshNetwork.removeNode
  rw [hX]
  show ((X.connections.foldl (fun s' connId => s'.updateNode connId
      (fun n => { n with connections := n.connections.filter (fun id => id != nodeId) }))
      s).nodes).filter (fun n => n.id != nodeId) = _
  rw [scrubFold_nodes]

theorem remove_inv (s : MeshNetwork) (nodeId : String) (h : Inv s) :
    Inv (s.removeNode nodeId) := by
  cases hX : s.getNode nodeId with
  | none =>
    have hno : s.removeNode nodeId = s := by
      unfold MeshNetwork.removeNode
      rw [hX]
    rw [hno]
    exact h
  | some X =>
    obtain ⟨hXmem, hXid⟩ := getNode_mem hX
    have hnodes := remove_nodes s nodeId hX
    obtain ⟨hnd, hdang, hsym⟩ := h
    show InvNodes (s.removeNode nodeId).nodes
    rw [hnodes]
    refine ⟨?_, ?_, ?_⟩
    · have hids : (s.nodes.map
          (fun n => if n.id ∈ X.connections then scrubConn nodeId n else n)).map Node.id =
          s.nodes.map Node.id := by
        rw [List.map_map]
        exact List.map_congr_left (fun n _ => scrubIf_id nodeId X.connections n)
      have hsub := (List.filter_sublist (l := s.nodes.map
          (fun n => if n.id ∈ X.connections then scrubConn nodeId n else n))
          (p := fun n => n.id != nodeId)).map Node.id
      rw [hids] at hsub
      exact List.Nodup.sublist hsub hnd
    · intro a ha r hr
      obtain ⟨ham, hapred⟩ := List.mem_filter.1 ha
      obtain ⟨a0, ha0, rfl⟩ := List.mem_map.1 ham
      rw [mem_scrubIf] at hr
      obtain ⟨hr0, hrc⟩ := hr
      have hrne : r ≠ nodeId := by
        by_cases hc : a0.id ∈ X.connections
        · exact hrc hc
        · intro hreq
          subst hreq
          exact hc ((hsym a0 ha0 X hXmem).1 (by rw [hXid]; exact hr0))
      obtain ⟨t, ht, htid⟩ := List.mem_map.1 (hdang a0 ha0 r hr0)
      refine List.mem_map.2
        ⟨(if t.id ∈ X.connections then scrubConn nodeId t else t), ?_, ?_⟩
      · refine List.mem_filter.2 ⟨List.mem_map.2 ⟨t, ht, rfl⟩, ?_⟩
        rw [scrubIf_id]
        simp [htid, hrne]
      · rw [scrubIf_id]
        exact htid
    · intro a ha b hb
      obtain ⟨ham, hapred⟩ := List.mem_filter.1 ha
      obtain ⟨a0, ha0, rfl⟩ := List.mem_map.1 ham
      obtain ⟨hbm, hbpred⟩ := List.mem_filter.1 hb
      obtain ⟨b0, hb0, rfl⟩ := List.mem_map.1 hbm
      rw [scrubIf_id] at hapred hbpred
      have hane : a0.id ≠ nodeId := by simpa using hapred
      have hbne : b0.id ≠ nodeId := by simpa using hbpred
      rw [scrubIf_id, scrubIf_id, mem_scrubIf, mem_scrubIf]
      have hiff := hsym a0 ha0 b0 hb0
      constructor
      · rintro ⟨h1, -⟩
        exact ⟨hiff.1 h1, fun _ => hane⟩
      · rintro ⟨h1, -⟩
        exact ⟨hiff.2 h1, fun _ => hbne⟩

theorem discover_inv (sqrtQ : JsRat → JsRat) (s : MeshNetwork) (nodeId : String)
    (h : Inv s) : Inv (s.discoverConnections sqrtQ nodeId) := by
  unfold MeshNetwork.discoverConnections
  cases hg : s.getNode nodeId with
  | none => exact h
  | some node =>
    refine foldl_preserve (P := fun st => Inv st) (fun s' nb hs' => ?_) _ _ h
    cases hg' : s'.getNode nodeId with
    | none => exact hs'
    | some cur =>
      show Inv (if nb.id ∈ cur.connections then s'
        else MeshNetwork.establishConnection sqrtQ s' nodeId nb.id)
      by_cases hmem : nb.id ∈ cur.connections
      · rw [if_pos hmem]
        exact hs'
      · rw [if_neg hmem]
        exact establish_inv sqrtQ s' nodeId nb.id hs'

theorem setNode_fresh (nodes : List Node) (node : Node)
    (h : ∀ n ∈ nodes, n.id ≠ node.id) : MeshNetwork.setNode nodes node = nodes ++ [node] := by
  induction nodes with
  | nil => rfl
  | cons n ns ih =>
    simp only [MeshNetwork.setNode]
    rw [if_neg (h n (List.mem_cons_self n ns)),
      ih (fun x hx => h x (List.mem_cons_of_mem n hx))]
    rfl

theorem InvNodes_snoc (ns : List Node) (node : Node) (hconn : node.connections = [])
    (hfresh : node.id ∉ ns.map Node.id) (h : InvNodes ns) : InvNodes (ns ++ [node]) := by
  obtain ⟨hnd, hdang, hsym⟩ := h
  refine ⟨?_, ?_, ?_⟩
  · rw [List.map_append]
    refine List.Nodup.append hnd (List.nodup_singleton _) ?_
    intro x hx hx'
    have : x = node.id := by simpa using hx'
    subst this
    exact hfresh hx
  · intro a ha r hr
    rw [List.map_append]
    rcases List.mem_append.1 ha with ha' | ha'
    · exact List.mem_append_left _ (hdang a ha' r hr)
    · have : a = node := by simpa using ha'
      subst this
      rw [hconn] at hr
      cases hr
  · intro a ha b hb
    rcases List.mem_append.1 ha with ha' | ha' <;> rcases List.mem_append.1 hb with hb' | hb'
    · exact hsym a ha' b hb'
    · have hbn : b = node := by simpa using hb'
      rw [hbn, hconn]
      simp only [List.not_mem_nil, iff_false]
      intro h1
      exact hfresh (hdang a ha' node.id h1)
    · have han : a = node := by simpa using ha'
      rw [han, hconn]
      simp only [List.not_mem_nil, false_iff]
      intro h1
      exact hfresh (hdang b hb' node.id h1)
    · have han : a = node := by simpa using ha'
      have hbn : b = node := by simpa using hb'
      rw [han, hbn]

theorem create_inv (sqrtQ : JsRat → JsRat) (s : MeshNetwork) (name : String) (x y : JsRat)
    (nodeId ip : String) (now : ℕ) (h : Inv s)
    (hfresh : s.nodes.all (fun n => n.id != nodeId) = true) :
    Inv (s.createNode sqrtQ name x y nodeId ip now) := by
  have hf : ∀ n ∈ s.nodes, n.id ≠ nodeId := by
    intro n hn
    have := List.all_eq_true.1 hfresh n hn
    simpa using this
  unfold MeshNetwork.createNode
  apply discover_inv
  show InvNodes (MeshNetwork.setNode s.nodes
    { id := nodeId, name := name, x := x, y := y, status := Status.online, battery := 100,
      signalStrength := 100, connections := [], lastSeen := now, messageCount := 0,
      ipAddress := ip })
  rw [setNode_fresh s.nodes _ (fun n hn => hf n hn)]
  refine InvNodes_snoc s.nodes _ rfl ?_ h
  intro hmem
  obtain ⟨t, ht, htid⟩ := List.mem_map.1 hmem
  exact hf t ht htid

theorem applyOp_inv (sqrtQ : JsRat → JsRat) (s : MeshNetwork) (op : TopologyOp)
    (h : Inv s) (hfresh : opFresh s op = true) : Inv (applyOp sqrtQ s op) := by
  cases op with
  | create name x y nodeId ip now => exact create_inv sqrtQ s name x y nodeId ip now h hfresh
  | establish idA idB => exact establish_inv sqrtQ s idA idB h
  | remove nodeId => exact remove_inv s nodeId h

theorem applyOps_inv (sqrtQ : JsRat → JsRat) (ops : List TopologyOp) :
    ∀ s : MeshNetwork, Inv s → freshOps sqrtQ s ops = true → Inv (applyOps sqrtQ s ops) := by
  induction ops with
  | nil =>
    intro s h _
    exact h
  | cons op ops ih =>
    intro s h hf
    simp only [freshOps, Bool.and_eq_true] at hf
    exact ih (applyOp sqrtQ s op) (applyOp_inv sqrtQ s op h hf.1) hf.2

theorem Inv_empty : Inv MeshNetwork.empty :=
  ⟨List.nodup_nil, fun a ha => absurd ha (List.not_mem_nil a),
   fun a ha => absurd ha (List.not_mem_nil a)⟩

/-- **C5** (confirmed): adjacency symmetry.  After any sequence of
`createNode`, `establishConnection` and `removeNode` operations starting from
the empty topology (with `CryptoUtils.generateId()`'s generated ids fresh, as
`freshOps` states), for all resident nodes A and B, B's id appears in
`A.connections` iff A's id appears in `B.connections`. -/
theorem c5_adjacency_symmetry (sqrtQ : JsRat → JsRat) (ops : List TopologyOp)
    (hfresh : freshOps sqrtQ MeshNetwork.empty ops = true) :
    ∀ a ∈ (applyOps sqrtQ MeshNetwork.empty ops).nodes,
      ∀ b ∈ (applyOps sqrtQ MeshNetwork.empty ops).nodes,
        (b.id ∈ a.connections ↔ a.id ∈ b.connections) :=
  (applyOps_inv sqrtQ ops MeshNetwork.empty Inv_empty hfresh).2.2

/-- A concrete op sequence: three creations (the first two in mutual range, so
discovery links them), one explicit connection, one removal. -/
def c5ops : List TopologyOp :=
  [TopologyOp.create "Alpha" 0 0 "a" "192.168.0.1" 0,
   TopologyOp.create "Bravo" 300 0 "b" "192.168.0.2" 1,
   TopologyOp.create "Charlie" 0 300 "c" "192.168.0.3" 2,
   TopologyOp.establish "a" "c",
   TopologyOp.remove "b"]

/-- Witness for C5 at a concrete input. -/
theorem c5_witness :
    freshOps ratSqrt MeshNetwork.empty c5ops = true ∧
    ∀ a ∈ (applyOps ratSqrt MeshNetwork.empty c5ops).nodes,
      ∀ b ∈ (applyOps ratSqrt MeshNetwork.empty c5ops).nodes,
        (b.id ∈ a.connections ↔ a.id ∈ b.connections) :=
  ⟨by decide, c5_adjacency_symmetry ratSqrt c5ops (by decide)⟩

end Crisisnet
